import Mathlib

/-!
Verification of the relais entity-wrapper generator
(src/scripts/generate_entities.py) against its specification.

The Python generator is shallowly embedded: its data classes become Lean
structures, its string manipulation becomes functions over `List Char`
(Python string primitives such as `str.split`, `str.replace` are re-implemented
with the same semantics, using explicit fuel where the recursion is not
structural; the fuel is always initialised to be at least the input length,
which makes the fuelled function agree with the unbounded recursion on every
input), and each code-emission pass becomes a function producing the same
list of emitted lines that the Python code appends to its `lines` list.
-/

namespace Relais

/-! ## Python string primitives -/

/-- Whitespace test matching the characters accepted by the regex class
backslash-s used by the Python source. -/
def pyIsSpace (c : Char) : Bool :=
  c = ' ' || c = '\t' || c = '\n' || c = '\r' || c = '\x0b' || c = '\x0c'

/-- Word-character test matching the regex class backslash-w (ASCII part). -/
def isWordChar (c : Char) : Bool :=
  c.isAlphanum || c = '_'

/-- Word-or-colon character, used for qualified C++ names in the regexes. -/
def isWordColon (c : Char) : Bool :=
  isWordChar c || c = ':'

/-- Fuelled splitter: one step of Python str.split(sep). The fuel is
initialised to the input length, which is always sufficient. -/
def splitFuel (sep : List Char) : Nat → List Char → List Char → List (List Char)
  | _, [], acc => [acc.reverse]
  | 0, l, acc => [acc.reverse ++ l]
  | fuel+1, c :: cs, acc =>
    if sep ≠ [] ∧ sep.isPrefixOf (c :: cs) then
      acc.reverse :: splitFuel sep fuel (cs.drop (sep.length - 1)) []
    else
      splitFuel sep fuel cs (c :: acc)

/-- Embedding of Python str.split(sep) for a non-empty separator. -/
def pySplit (s sep : String) : List String :=
  (splitFuel sep.data s.data.length s.data []).map String.mk

/-- Fuelled replacement: one step of Python str.replace(pat, rep). -/
def replaceFuel (pat rep : List Char) : Nat → List Char → List Char
  | _, [] => []
  | 0, l => l
  | fuel+1, c :: cs =>
    if pat ≠ [] ∧ pat.isPrefixOf (c :: cs) then
      rep ++ replaceFuel pat rep fuel (cs.drop (pat.length - 1))
    else
      c :: replaceFuel pat rep fuel cs

/-- Embedding of Python str.replace(pat, rep) (non-empty pattern). -/
def pyReplace (s pat rep : String) : String :=
  String.mk (replaceFuel pat.data rep.data s.data.length s.data)

/-- Substring test on character lists, embedding the Python `in` operator
on strings. -/
def listContainsSub (pat : List Char) : List Char → Bool
  | [] => pat.isPrefixOf []
  | c :: cs => pat.isPrefixOf (c :: cs) || listContainsSub pat cs

/-- Embedding of the Python expression `pat in s` on strings. -/
def containsSub (s pat : String) : Bool :=
  listContainsSub pat.data s.data

/-- Embedding of Python str.upper() for the ASCII strings the generator
upper-cases (filter operator names). -/
def pyUpper (s : String) : String :=
  String.mk (s.data.map Char.toUpper)

/-- Case conversion used by MappingGenerator._resolve_table_name: the regex
re.sub((?<!caret)(?=[A-Z]), underscore, name).lower(), i.e. an underscore is
inserted before every upper-case letter that is not at position 0 and the
whole string is lower-cased. -/
def camelToSnakeChars : Bool → List Char → List Char
  | _, [] => []
  | isFirst, c :: cs =>
    if ¬ isFirst ∧ c.isUpper then '_' :: c.toLower :: camelToSnakeChars false cs
    else c.toLower :: camelToSnakeChars false cs

/-- CamelCase to snake_case conversion of _resolve_table_name. -/
def camelToSnake (name : String) : String :=
  String.mk (camelToSnakeChars true name.data)

/-! ## Data structures (generate_entities.py, header section) -/

/-- FilterConfig: HTTP parameter, struct field and comparison operator. -/
structure FilterConfig where
  param : String
  field : String
  op : String := "eq"
deriving Repr, DecidableEq

/-- SortConfig: HTTP parameter, struct field and direction. -/
structure SortConfig where
  param : String
  field : String
  direction : String := "desc"
deriving Repr, DecidableEq

/-- EnumMapping: enum field mapping between DB strings and C++ enum values. -/
structure EnumMapping where
  field_name : String
  pairs : List (String × String)
  cpp_type : String := ""
deriving Repr, DecidableEq

/-- DataMember: a parsed C++ struct data member. The Python `tags` set is
modelled as a list only consulted through membership. -/
structure DataMember where
  name : String
  cpp_type : String
  default : String := ""
  db_column : String := ""
  tags : List String := []
  enum_pairs : List (String × String) := []
  filter_configs : List FilterConfig := []
  sort_configs : List SortConfig := []
deriving Repr, DecidableEq

/-- DB column name: falls back to the C++ field name (DataMember.col_name). -/
def DataMember.col_name (m : DataMember) : String :=
  if m.db_column ≠ "" then m.db_column else m.name

/-- DataMember.is_optional: the declared type starts with the optional
template prefix. -/
def DataMember.is_optional (m : DataMember) : Bool :=
  ("std::optional<").data.isPrefixOf m.cpp_type.data

/-- DataMember.inner_type: drop the prefix std::optional< (14 characters)
and the closing angle bracket, exactly as the Python slice [14:-1]. -/
def DataMember.inner_type (m : DataMember) : String :=
  if m.is_optional then String.mk ((m.cpp_type.data.drop 14).dropLast)
  else m.cpp_type

/-- DataMember.is_raw_json: the type name contains raw_json. -/
def DataMember.is_raw_json (m : DataMember) : Bool :=
  containsSub m.cpp_type ("raw_json")

/-- EntityAnnot: parsed class-level annotations of one entity. -/
structure EntityAnnot where
  table : String := ""
  model : String := ""
  primary_keys : List String := []
  partition_keys : List String := []
  db_managed : List String := []
  timestamps : List String := []
  raw_json : List String := []
  json_fields : List String := []
  enums : List EnumMapping := []
  read_only : Bool := false
  filters : List FilterConfig := []
  sorts : List SortConfig := []
  limits : List Int := []
  entity_fqn : String := ""
deriving Repr, DecidableEq

/-- EntityAnnot.primary_key: first primary key, falling back to id. -/
def EntityAnnot.primary_key (a : EntityAnnot) : String :=
  a.primary_keys.headD ("id")

/-- EntityAnnot.is_composite: more than one primary-key field. -/
def EntityAnnot.is_composite (a : EntityAnnot) : Bool :=
  decide (1 < a.primary_keys.length)

/-- EntityAnnot.has_list: any filter, sort or limit configuration. -/
def EntityAnnot.has_list (a : EntityAnnot) : Bool :=
  !a.filters.isEmpty || !a.sorts.isEmpty || !a.limits.isEmpty

/-- ParsedEntity: a fully parsed entity. The Python field `namespace` is a
Lean keyword and is called nspace here; `source_file` holds the file name
(Python uses entity.source_file.name for all emitted text). -/
structure ParsedEntity where
  class_name : String
  nspace : String
  annot : EntityAnnot
  members : List DataMember
  source_file : String
deriving Repr, DecidableEq

/-! ## Tag grammar (StructParser._parse_filterable_tag / _parse_sortable_tag) -/

/-- Known comparison-operator tokens of _parse_filterable_tag. -/
def KNOWN_OPS : List String := ["eq", "ne", "gt", "ge", "lt", "le", "gte", "lte"]

/-- Operator alias normalisation applied by the tag parser:
val.replace(gte, ge).replace(lte, le). -/
def normalizeOp (val : String) : String :=
  pyReplace (pyReplace val ("gte") ("ge")) ("lte") ("le")

/-- Embedding of StructParser._parse_filterable_tag. -/
def parseFilterableTag (field_name tag : String) : FilterConfig :=
  let parts := pySplit tag (":")
  match parts with
  | [] => { param := field_name, field := field_name }
  | [_] => { param := field_name, field := field_name }
  | [_, val] =>
    if val ∈ KNOWN_OPS then
      { param := field_name, field := field_name, op := normalizeOp val }
    else
      { param := val, field := field_name }
  | _ :: p1 :: p2 :: _ =>
    { param := p1, field := field_name, op := normalizeOp p2 }

/-- Directions recognised by _parse_sortable_tag. -/
def DIRECTIONS : List String := ["asc", "desc"]

/-- Embedding of StructParser._parse_sortable_tag. -/
def parseSortableTag (field_name tag : String) : SortConfig :=
  let parts := pySplit tag (":")
  match parts with
  | [] => { param := field_name, field := field_name }
  | [_] => { param := field_name, field := field_name }
  | [_, val] =>
    if val ∈ DIRECTIONS then
      { param := field_name, field := field_name, direction := val }
    else
      { param := val, field := field_name }
  | _ :: p1 :: p2 :: _ =>
    { param := p1, field := field_name, direction := p2 }

/-! ## StructParser._apply_member_annotations -/

/-- Embedding of StructParser._apply_member_annotations: walk the members
once, accumulating the per-field tags into the class-level annotation. -/
def applyMemberAnnotations (annot : EntityAnnot)
    (members : List DataMember) : EntityAnnot :=
  members.foldl (fun a m =>
    let a := if m.tags.contains ("primary_key") then
      { a with primary_keys := a.primary_keys ++ [m.name] } else a
    let a := if m.tags.contains ("partition_key") then
      { a with partition_keys := a.partition_keys ++ [m.name] } else a
    let a := if m.tags.contains ("db_managed") then
      { a with db_managed := a.db_managed ++ [m.name] } else a
    let a := if m.tags.contains ("timestamp") then
      { a with timestamps := a.timestamps ++ [m.name] } else a
    let a := if m.tags.contains ("raw_json") then
      { a with raw_json := a.raw_json ++ [m.name] } else a
    let a := if m.tags.contains ("json_field") then
      { a with json_fields := a.json_fields ++ [m.name] } else a
    let a := if m.enum_pairs ≠ [] then
      { a with enums := a.enums ++ [⟨m.name, m.enum_pairs, m.inner_type⟩] }
      else if m.tags.contains ("auto_enum") then
        { a with enums := a.enums ++ [⟨m.name, [], m.inner_type⟩] }
      else a
    let a := { a with filters := a.filters ++ m.filter_configs }
    { a with sorts := a.sorts ++ m.sort_configs }) annot

/-! ## Helpers of MappingGenerator -/

/-- Embedding of MappingGenerator._col: resolve the DB column name of a
field, falling back to the field name when no member carries it. -/
def colOf (e : ParsedEntity) (field_name : String) : String :=
  match e.members.find? (fun m => m.name == field_name) with
  | some m => m.col_name
  | none => field_name

/-- Embedding of MappingGenerator._qualify_type. -/
def qualifyType (e : ParsedEntity) (cpp_type : String) : String :=
  if containsSub cpp_type ("::") then cpp_type
  else if e.nspace ≠ "" then e.nspace ++ "::" ++ cpp_type
  else cpp_type

/-- Embedding of MappingGenerator._resolve_table_name (the diagnostic print
on the fallback path is dropped; only the returned name is modelled). -/
def resolveTableName (e : ParsedEntity) : String :=
  if e.annot.table ≠ "" then e.annot.table
  else camelToSnake e.class_name

/-- Embedding of MappingGenerator._get_updateable_fields: all members except
primary keys (falling back to id), db-managed and JSON fields. -/
def getUpdateableFields (e : ParsedEntity) : List DataMember :=
  let a := e.annot
  let pk_set := if a.primary_keys ≠ [] then a.primary_keys else ["id"]
  e.members.filter (fun m =>
    !(pk_set.contains m.name) && !(a.db_managed.contains m.name) &&
    !(a.json_fields.contains m.name))

/-- Embedding of MappingGenerator._find_enum_mapping (first match wins). -/
def findEnumMapping (a : EntityAnnot) (field_name : String) :
    Option EnumMapping :=
  a.enums.find? (fun em => em.field_name == field_name)

/-! ## SQL pass (MappingGenerator._generate_sql_struct) -/

/-- Column list of the SELECT, RETURNING and batch-SELECT statements:
all members in declared order (local all_cols). -/
def allCols (e : ParsedEntity) : List String :=
  e.members.map DataMember.col_name

/-- Column list of the INSERT statement: db-managed members are skipped
(local insert_cols). -/
def insertCols (e : ParsedEntity) : List String :=
  (e.members.filter
    (fun m => !(e.annot.db_managed.contains m.name))).map DataMember.col_name

/-- The VALUES placeholder list of the INSERT statement (local
insert_params). -/
def insertParamsStr (e : ParsedEntity) : String :=
  String.intercalate (", ")
    ((List.range (insertCols e).length).map (fun i => "$" ++ toString (i+1)))

/-- Primary-key columns used in WHERE clauses (local pk_cols), with the
id fallback when no primary-key tag exists. -/
def pkCols (e : ParsedEntity) : List String :=
  if e.annot.primary_keys ≠ [] then
    e.annot.primary_keys.map (colOf e)
  else [colOf e ("id")]

/-- The equality tests of the primary-key WHERE clause, one per key column,
numbered from one. -/
def pkWhereClauses (e : ParsedEntity) : List String :=
  (pkCols e).enum.map (fun p => p.2 ++ " = $" ++ toString (p.1 + 1))

/-- The primary-key WHERE clause (local pk_where). -/
def pkWhere (e : ParsedEntity) : String :=
  String.intercalate (" AND ") (pkWhereClauses e)

/-- The effective primary-key name set (local pk_set), with id fallback. -/
def pkSet (e : ParsedEntity) : List String :=
  if e.annot.primary_keys ≠ [] then e.annot.primary_keys else ["id"]

/-- UPDATE SET column list: members that are neither effective primary keys
nor db-managed (local update_cols). -/
def updateCols (e : ParsedEntity) : List String :=
  (e.members.filter (fun m =>
    !((pkSet e).contains m.name) &&
    !(e.annot.db_managed.contains m.name))).map DataMember.col_name

/-- The SET clauses of the UPDATE statement; placeholder numbering starts
after the key placeholders. -/
def updateSetClauses (e : ParsedEntity) : List String :=
  (updateCols e).enum.map
    (fun p => p.2 ++ "=$" ++ toString (p.1 + (pkCols e).length + 1))

/-- The joined SET clause string (local update_set). -/
def updateSet (e : ParsedEntity) : String :=
  String.intercalate (", ") (updateSetClauses e)

/-- WHERE clause of the batch SELECT: simple ANY for a single key, parallel
unnest membership for a composite key. -/
def batchWhere (e : ParsedEntity) : String :=
  let cols := pkCols e
  if cols.length = 1 then
    cols.headD ("") ++ " = ANY($1)"
  else
    let unnest_parts := String.intercalate (", ")
      ((List.range cols.length).map (fun i => "unnest($" ++ toString (i+1) ++ ")"))
    let key_tuple := String.intercalate (", ") cols
    "(" ++ key_tuple ++ ") IN (SELECT " ++ unnest_parts ++ ")"

/-- WHERE clause of the partition-pruned DELETE: primary-key equalities
followed by partition-key equalities with continuing placeholder numbers. -/
def hintWhereClause (e : ParsedEntity) : String :=
  let pk_count := (pkCols e).length
  let parts := pkWhereClauses e ++
    e.annot.partition_keys.enum.map
      (fun p => colOf e p.2 ++ " = $" ++ toString (pk_count + p.1 + 1))
  String.intercalate (" AND ") parts

/-- Embedding of MappingGenerator._generate_sql_struct: the emitted lines of
the nested SQL struct. -/
def sqlStructLines (e : ParsedEntity) (table_name : String) : List String :=
  let a := e.annot
  let all_cols_str := String.intercalate (", ") (allCols e)
  let insert_cols_str := String.intercalate (", ") (insertCols e)
  ["    struct SQL \x7b",
   "        static constexpr const char* returning_columns =",
   "            \"" ++ all_cols_str ++ "\";",
   "        static constexpr const char* select_by_pk =",
   "            \"SELECT " ++ all_cols_str ++ " FROM " ++ table_name ++
     " WHERE " ++ pkWhere e ++ "\";",
   "        static constexpr const char* insert =",
   "            \"INSERT INTO " ++ table_name ++ " (" ++ insert_cols_str ++
     ") VALUES (" ++ insertParamsStr e ++ ") RETURNING " ++ all_cols_str ++ "\";"]
  ++ (if ¬ a.read_only then
      ["        static constexpr const char* update =",
       "            \"UPDATE " ++ table_name ++ " SET " ++ updateSet e ++
         " WHERE " ++ pkWhere e ++ "\";"]
      else [])
  ++ ["        static constexpr const char* select_by_pk_batch =",
      "            \"SELECT " ++ all_cols_str ++ " FROM " ++ table_name ++
        " WHERE " ++ batchWhere e ++ "\";",
      "        static constexpr const char* delete_by_pk =",
      "            \"DELETE FROM " ++ table_name ++ " WHERE " ++ pkWhere e ++ "\";"]
  ++ (if a.partition_keys ≠ [] then
      ["        static constexpr const char* delete_with_partition =",
       "            \"DELETE FROM " ++ table_name ++ " WHERE " ++
         hintWhereClause e ++ "\";"]
      else [])
  ++ ["    \x7d;"]

/-! ## Type qualification helpers -/

/-- Fundamental C++ types never qualified (MappingGenerator._FUNDAMENTAL_TYPES). -/
def FUNDAMENTAL_TYPES : List String :=
  ["int8_t", "int16_t", "int32_t", "int64_t",
   "uint8_t", "uint16_t", "uint32_t", "uint64_t",
   "float", "double", "bool", "char"]

/-- Fuelled embedding of MappingGenerator._qualify_cpp_type; each recursive
call strips a template prefix of at least twelve characters, so fuel equal
to the length plus one never runs out. -/
def qualifyCppTypeFuel (e : ParsedEntity) : Nat → String → String
  | 0, cpp_type => cpp_type
  | fuel+1, cpp_type =>
    if ("std::optional<").data.isPrefixOf cpp_type.data then
      "std::optional<" ++
        qualifyCppTypeFuel e fuel (String.mk ((cpp_type.data.drop 14).dropLast)) ++ ">"
    else if ("std::vector<").data.isPrefixOf cpp_type.data then
      "std::vector<" ++
        qualifyCppTypeFuel e fuel (String.mk ((cpp_type.data.drop 12).dropLast)) ++ ">"
    else if ("std::").data.isPrefixOf cpp_type.data ||
        ("glz::").data.isPrefixOf cpp_type.data then cpp_type
    else if cpp_type ∈ FUNDAMENTAL_TYPES then cpp_type
    else if containsSub cpp_type ("::") then cpp_type
    else if e.nspace ≠ "" then e.nspace ++ "::" ++ cpp_type
    else cpp_type

/-- Embedding of MappingGenerator._qualify_cpp_type. -/
def qualifyCppType (e : ParsedEntity) (cpp_type : String) : String :=
  qualifyCppTypeFuel e (cpp_type.data.length + 1) cpp_type

/-- Fully qualified struct name of the entity (local struct_fqn). -/
def structFqn (e : ParsedEntity) : String :=
  if e.nspace ≠ "" then e.nspace ++ "::" ++ e.class_name else e.class_name

/-- Embedding of MappingGenerator._rowview_type. -/
def rowviewType (e : ParsedEntity) (m : DataMember) : String :=
  if e.annot.json_fields.contains m.name then qualifyCppType e m.cpp_type
  else if m.is_raw_json then "glz::raw_json_view"
  else if m.cpp_type = "std::string" then "std::string_view"
  else if m.cpp_type = "std::optional<std::string>" then
    "std::optional<std::string_view>"
  else qualifyCppType e m.cpp_type

/-! ## TraitsType, key and partition-hint sections -/

/-- Embedding of MappingGenerator._generate_traits_type. -/
def traitsTypeLines (a : EntityAnnot) (updateable : List DataMember) :
    List String :=
  ["    struct TraitsType \x7b"]
  ++ (if updateable ≠ [] ∧ ¬ a.read_only then
      ["        enum class Field : uint8_t \x7b"]
      ++ updateable.enum.map (fun p =>
          "            " ++ p.2.name ++ (if p.1 < updateable.length - 1 then "," else ""))
      ++ ["        \x7d;", "", "        template<Field> struct FieldInfo;"]
      else [])
  ++ ["    \x7d;"]

/-- The key() accessor lines of the mapping struct. -/
def keyLines (a : EntityAnnot) : List String :=
  ["    template<typename Entity>",
   "    static auto key(const Entity& e) noexcept \x7b"]
  ++ (if a.is_composite then
      ["        return std::make_tuple(" ++
        String.intercalate (", ") (a.primary_keys.map (fun pk => "e." ++ pk)) ++ ");"]
      else ["        return e." ++ a.primary_key ++ ";"])
  ++ ["    \x7d"]

/-- The makePartitionHintParams lines (emitted only when partition keys
exist). -/
def partitionHintLines (a : EntityAnnot) : List String :=
  let args := ("e." ++ a.primary_key) :: a.partition_keys.map (fun pk => "e." ++ pk)
  ["    template<typename Entity>",
   "    static jcailloux::relais::io::PgParams makePartitionHintParams(const Entity& e) \x7b",
   "        return jcailloux::relais::io::PgParams::make(",
   "            " ++ String.intercalate (",\n            ") args,
   "        );",
   "    \x7d"]

/-! ## Row-decode pass (MappingGenerator._generate_from_row) -/

/-- The decode lines emitted for one member of fromRow, branching on the
field kind exactly as the Python loop body. -/
def fromRowMemberLines (e : ParsedEntity) (m : DataMember) : List String :=
  let a := e.annot
  let enum_mapping := findEnumMapping a m.name
  if a.json_fields.contains m.name then
    if m.is_optional then
      ["        if (!row.isNull(Col::" ++ m.name ++ ")) \x7b",
       "            auto json_str = row.get<std::string>(Col::" ++ m.name ++ ");",
       "            if (!json_str.empty()) \x7b",
       "                typename std::remove_reference_t<decltype(*e." ++ m.name ++ ")> tmp;",
       "                if (!glz::read_json(tmp, json_str))",
       "                    e." ++ m.name ++ " = std::move(tmp);",
       "            \x7d",
       "        \x7d"]
    else
      ["        glz::read_json(e." ++ m.name ++ ", row.get<std::string>(Col::" ++ m.name ++ "));"]
  else if m.is_raw_json then
    ["        e." ++ m.name ++ ".str = row.get<std::string>(Col::" ++ m.name ++ ");"]
  else match enum_mapping with
  | some em =>
    let enum_fqn := qualifyType e em.cpp_type
    if m.is_optional then
      ["        if (!row.isNull(Col::" ++ m.name ++ ")) \x7b",
       "            auto s = row.get<std::string>(Col::" ++ m.name ++ ");"]
      ++ em.pairs.map (fun pr =>
          "            if (s == \"" ++ pr.1 ++ "\") e." ++ m.name ++ " = " ++
            enum_fqn ++ "::" ++ pr.2 ++ ";")
      ++ ["        \x7d"]
    else
      ["        \x7b",
       "            auto s = row.get<std::string>(Col::" ++ m.name ++ ");"]
      ++ em.pairs.map (fun pr =>
          "            if (s == \"" ++ pr.1 ++ "\") e." ++ m.name ++ " = " ++
            enum_fqn ++ "::" ++ pr.2 ++ ";")
      ++ ["        \x7d"]
  | none =>
    if m.is_optional then
      ["        e." ++ m.name ++ " = row.getOpt<" ++ m.inner_type ++ ">(Col::" ++ m.name ++ ");"]
    else
      ["        e." ++ m.name ++ " = row.get<" ++ m.cpp_type ++ ">(Col::" ++ m.name ++ ");"]

/-- Embedding of MappingGenerator._generate_from_row. -/
def fromRowLines (e : ParsedEntity) : List String :=
  ["    template<typename Entity>",
   "    static std::optional<Entity> fromRow(const jcailloux::relais::io::PgResult::Row& row) \x7b",
   "        Entity e;"]
  ++ (e.members.map (fromRowMemberLines e)).flatten
  ++ ["        return e;", "    \x7d"]

/-! ## Write-encode pass -/

/-- Special members force the manual PgParams construction path. -/
def memberIsSpecial (a : EntityAnnot) (m : DataMember) : Bool :=
  a.json_fields.contains m.name || m.is_raw_json ||
  (findEnumMapping a m.name).isSome

/-- The per-member push lines of the manual parameter-encoding path; the
Python bodies of _generate_to_insert_params and _generate_to_update_params
contain this loop body verbatim twice. -/
def pushLines (e : ParsedEntity) (m : DataMember) : List String :=
  let a := e.annot
  let enum_mapping := findEnumMapping a m.name
  if a.json_fields.contains m.name then
    if m.is_optional then
      ["        if (e." ++ m.name ++ ") \x7b",
       "            std::string json;",
       "            glz::write_json(*e." ++ m.name ++ ", json);",
       "            p.push(json);",
       "        \x7d else \x7b",
       "            p.pushNull();",
       "        \x7d"]
    else
      ["        \x7b std::string json; glz::write_json(e." ++ m.name ++ ", json); p.push(json); \x7d"]
  else if m.is_raw_json then
    ["        p.push(e." ++ m.name ++ ".str);"]
  else match enum_mapping with
  | some em =>
    let enum_fqn := qualifyType e em.cpp_type
    if m.is_optional then
      ["        if (e." ++ m.name ++ ".has_value()) \x7b",
       "            switch (*e." ++ m.name ++ ") \x7b"]
      ++ em.pairs.map (fun pr =>
          "                case " ++ enum_fqn ++ "::" ++ pr.2 ++ ": p.push(\"" ++
            pr.1 ++ "\"); break;")
      ++ ["            \x7d",
          "        \x7d else \x7b",
          "            p.pushNull();",
          "        \x7d"]
    else
      ["        switch (e." ++ m.name ++ ") \x7b"]
      ++ em.pairs.map (fun pr =>
          "            case " ++ enum_fqn ++ "::" ++ pr.2 ++ ": p.push(\"" ++
            pr.1 ++ "\"); break;")
      ++ ["        \x7d"]
  | none => ["        p.push(e." ++ m.name ++ ");"]

/-- Embedding of MappingGenerator._generate_to_insert_params. -/
def toInsertParamsLines (e : ParsedEntity) : List String :=
  let a := e.annot
  let insert_members := e.members.filter (fun m => !(a.db_managed.contains m.name))
  let has_special := insert_members.any (fun m => memberIsSpecial a m)
  ["    template<typename Entity>",
   "    static jcailloux::relais::io::PgParams toInsertParams(const Entity& e) \x7b"]
  ++ (match e.members.find? (fun m => a.db_managed.contains m.name) with
      | some m => ["        // " ++ m.name ++ ": skipped (db_managed)"]
      | none => [])
  ++ (if ¬ has_special then
      ["        return jcailloux::relais::io::PgParams::make(",
       String.intercalate (",\n") (insert_members.map (fun m => "            e." ++ m.name)),
       "        );"]
      else
      ["        jcailloux::relais::io::PgParams p;"]
      ++ (insert_members.map (pushLines e)).flatten
      ++ ["        return p;"])
  ++ ["    \x7d"]

/-- Embedding of MappingGenerator._generate_to_update_params (generated only
for composite-key entities; its SET member filter uses the raw primary-key
list without the id fallback, exactly as the Python code). -/
def toUpdateParamsLines (e : ParsedEntity) : List String :=
  let a := e.annot
  let update_members := e.members.filter (fun m =>
    !(a.primary_keys.contains m.name) && !(a.db_managed.contains m.name))
  let has_special := update_members.any (fun m => memberIsSpecial a m)
  ["    template<typename Entity>",
   "    static jcailloux::relais::io::PgParams toUpdateParams(const Entity& e) \x7b"]
  ++ (if ¬ has_special then
      ["        return jcailloux::relais::io::PgParams::make(",
       String.intercalate (",\n") (update_members.map (fun m => "            e." ++ m.name)),
       "        );"]
      else
      ["        jcailloux::relais::io::PgParams p;"]
      ++ (update_members.map (pushLines e)).flatten
      ++ ["        return p;"])
  ++ ["    \x7d"]

/-! ## dynamicSize and glaze metadata -/

/-- The dynamic-size summand contributed by one member
(MappingGenerator._generate_dynamic_size loop body). -/
def dynamicSizeEntry (m : DataMember) : List String :=
  let hc := "jcailloux::relais::wrapper::heapCapacity"
  if m.cpp_type = "std::string" then [hc ++ "(s." ++ m.name ++ ")"]
  else if m.cpp_type = "std::optional<std::string>" then
    ["(s." ++ m.name ++ " ? " ++ hc ++ "(*s." ++ m.name ++ ") : 0)"]
  else if m.cpp_type = "std::vector<char>" then
    ["s." ++ m.name ++ ".capacity()"]
  else if m.cpp_type = "std::optional<std::vector<char>>" then
    ["(s." ++ m.name ++ " ? s." ++ m.name ++ "->capacity() : 0)"]
  else if m.is_raw_json then [hc ++ "(s." ++ m.name ++ ".str)"]
  else []

/-- Embedding of MappingGenerator._generate_dynamic_size. -/
def dynamicSizeLines (e : ParsedEntity) : List String :=
  let dynamic_fields := (e.members.map dynamicSizeEntry).flatten
  if dynamic_fields = [] then []
  else
    ["    static size_t dynamicSize(const " ++ structFqn e ++ "& s) \x7b",
     "        return " ++ String.intercalate (" + ") dynamic_fields ++ ";",
     "    \x7d"]

/-- One name/accessor pair line of a glz::object(...) call, with a comma on
every entry but the last. -/
def glazePairLines (names : List String) : List String :=
  names.enum.map (fun p =>
    "        \"" ++ p.2 ++ "\", &T::" ++ p.2 ++
      (if p.1 < names.length - 1 then "," else ""))

/-- Embedding of MappingGenerator._generate_glaze_value. -/
def glazeValueLines (e : ParsedEntity) : List String :=
  ["    template<typename T>",
   "    static constexpr auto glaze_value = glz::object("]
  ++ glazePairLines (e.members.map DataMember.name)
  ++ ["    );"]

/-! ## RowView section -/

/-- Fundamental types zero-initialised in the RowView (the local frozenset
of _generate_row_view, which does not contain char). -/
def ROWVIEW_FUNDAMENTAL : List String :=
  ["int8_t", "int16_t", "int32_t", "int64_t",
   "uint8_t", "uint16_t", "uint32_t", "uint64_t",
   "float", "double", "bool"]

/-- One member declaration line of the RowView struct. -/
def rowViewMemberLine (e : ParsedEntity) (m : DataMember) : String :=
  let rv_type := rowviewType e m
  let enum_mapping := findEnumMapping e.annot m.name
  let dflt :=
    if rv_type ∈ ROWVIEW_FUNDAMENTAL then " = \x7b\x7d"
    else if enum_mapping.isSome ∧ ¬ m.is_optional then " = \x7b\x7d"
    else ""
  "        " ++ rv_type ++ " " ++ m.name ++ dflt ++ ";"

/-- The populate lines for one member of a RowView
(MappingGenerator._generate_rowview_populate loop body, var = v). -/
def rowviewPopulateMember (e : ParsedEntity) (m : DataMember) : List String :=
  let a := e.annot
  let enum_mapping := findEnumMapping a m.name
  if a.json_fields.contains m.name then
    if m.is_optional then
      ["        if (!row.isNull(Col::" ++ m.name ++ ")) \x7b",
       "            auto json_sv = row.get<std::string_view>(Col::" ++ m.name ++ ");",
       "            if (!json_sv.empty()) \x7b",
       "                typename std::remove_reference_t<decltype(*v." ++ m.name ++ ")> tmp;",
       "                if (!glz::read_json(tmp, json_sv))",
       "                    v." ++ m.name ++ " = std::move(tmp);",
       "            \x7d",
       "        \x7d"]
    else
      ["        (void)glz::read_json(v." ++ m.name ++ ", row.get<std::string_view>(Col::" ++ m.name ++ "));"]
  else if m.is_raw_json then
    ["        v." ++ m.name ++ ".str = row.get<std::string_view>(Col::" ++ m.name ++ ");"]
  else match enum_mapping with
  | some em =>
    let enum_fqn := qualifyType e em.cpp_type
    if m.is_optional then
      ["        if (!row.isNull(Col::" ++ m.name ++ ")) \x7b",
       "            auto s = row.get<std::string_view>(Col::" ++ m.name ++ ");"]
      ++ em.pairs.map (fun pr =>
          "            if (s == \"" ++ pr.1 ++ "\") v." ++ m.name ++ " = " ++
            enum_fqn ++ "::" ++ pr.2 ++ ";")
      ++ ["        \x7d"]
    else
      ["        \x7b",
       "            auto s = row.get<std::string_view>(Col::" ++ m.name ++ ");"]
      ++ em.pairs.map (fun pr =>
          "            if (s == \"" ++ pr.1 ++ "\") v." ++ m.name ++ " = " ++
            enum_fqn ++ "::" ++ pr.2 ++ ";")
      ++ ["        \x7d"]
  | none =>
    if m.is_optional then
      let inner := if m.inner_type = "std::string" then "std::string_view" else m.inner_type
      ["        v." ++ m.name ++ " = row.getOpt<" ++ inner ++ ">(Col::" ++ m.name ++ ");"]
    else
      ["        v." ++ m.name ++ " = row.get<" ++ rowviewType e m ++ ">(Col::" ++ m.name ++ ");"]

/-- Embedding of MappingGenerator._generate_row_to_json. -/
def rowToJsonLines (e : ParsedEntity) : List String :=
  ["    template<typename V = RowView>",
   "    static std::shared_ptr<const std::string> rowToJson(",
   "            const jcailloux::relais::io::PgResult::Row& row) \x7b",
   "        V v;"]
  ++ (e.members.map (rowviewPopulateMember e)).flatten
  ++ ["        auto json = std::make_shared<std::string>();",
      "        json->reserve(256);",
      "        if (glz::write_json(v, *json))",
      "            return nullptr;",
      "        return json;",
      "    \x7d"]

/-- Embedding of MappingGenerator._generate_row_to_beve. -/
def rowToBeveLines (e : ParsedEntity) : List String :=
  ["    template<typename V = RowView>",
   "    static std::shared_ptr<const std::vector<uint8_t>> rowToBeve(",
   "            const jcailloux::relais::io::PgResult::Row& row) \x7b",
   "        V v;"]
  ++ (e.members.map (rowviewPopulateMember e)).flatten
  ++ ["        auto buf = std::make_shared<std::vector<uint8_t>>();",
      "        if (glz::write_beve(v, *buf))",
      "            return nullptr;",
      "        return buf;",
      "    \x7d"]

/-- Embedding of MappingGenerator._generate_row_view. -/
def rowViewSectionLines (e : ParsedEntity) : List String :=
  ["    // RowView — zero-copy view for direct serialization from PgResult",
   "    struct RowView \x7b"]
  ++ e.members.map (rowViewMemberLine e)
  ++ ["    \x7d;", ""]
  ++ rowToJsonLines e ++ [""]
  ++ rowToBeveLines e

/-! ## Embedded ListDescriptor pass -/

/-- Stable ascending sort of the filter configurations by HTTP parameter
name, embedding the in-place list.sort(key=param) of
_generate_embedded_descriptor. -/
def sortFilters (fs : List FilterConfig) : List FilterConfig :=
  fs.mergeSort (fun f g => decide (f.param ≤ g.param))

/-- Namespace prefix used by the descriptor entries (local decl_ns). -/
def DECL_NS : String := "jcailloux::relais::cache::list::decl"

/-- One emitted filter entry of the ListDescriptor. -/
def filterEntryLine (e : ParsedEntity) (total : Nat) (p : Nat × FilterConfig) :
    String :=
  let comma := if p.1 < total - 1 then "," else ""
  let f := p.2
  let f_col := colOf e f.field
  if f.op = "eq" then
    "            " ++ DECL_NS ++ "::Filter<\"" ++ f.param ++ "\", &" ++
      structFqn e ++ "::" ++ f.field ++ ", \"" ++ f_col ++ "\">\x7b\x7d" ++ comma
  else
    "            " ++ DECL_NS ++ "::Filter<\"" ++ f.param ++ "\", &" ++
      structFqn e ++ "::" ++ f.field ++ ", \"" ++ f_col ++ "\", " ++
      DECL_NS ++ "::Op::" ++ pyUpper f.op ++ ">\x7b\x7d" ++ comma

/-- One emitted sort entry of the ListDescriptor. -/
def sortEntryLine (e : ParsedEntity) (total : Nat) (p : Nat × SortConfig) :
    String :=
  let comma := if p.1 < total - 1 then "," else ""
  let s := p.2
  let s_col := colOf e s.field
  let direction := if s.direction = "desc" then "SortDirection::Desc"
                   else "SortDirection::Asc"
  "            " ++ DECL_NS ++ "::Sort<\"" ++ s.param ++ "\", &" ++
    structFqn e ++ "::" ++ s.field ++ ", \"" ++ s_col ++ "\", " ++
    DECL_NS ++ "::" ++ direction ++ ">\x7b\x7d" ++ comma

/-- Embedding of MappingGenerator._generate_embedded_descriptor. -/
def embeddedDescriptorLines (e : ParsedEntity) : List String :=
  let a := e.annot
  let limits := if a.limits ≠ [] then a.limits else [10, 25, 50]
  let default_limit := limits.headD 0
  let max_limit := limits.getLastD 0
  ["    // Embedded ListDescriptor — auto-detected by ListMixin",
   "    struct ListDescriptor \x7b"]
  ++ (if a.filters ≠ [] then
      let sorted := sortFilters a.filters
      ["", "        static constexpr auto filters = std::tuple\x7b"]
      ++ sorted.enum.map (filterEntryLine e sorted.length)
      ++ ["        \x7d;"]
      else [])
  ++ (if a.sorts ≠ [] then
      ["", "        static constexpr auto sorts = std::tuple\x7b"]
      ++ a.sorts.enum.map (sortEntryLine e a.sorts.length)
      ++ ["        \x7d;"]
      else [])
  ++ ["",
      "        static constexpr uint16_t defaultLimit = " ++ toString default_limit ++ ";",
      "        static constexpr uint16_t maxLimit = " ++ toString max_limit ++ ";",
      "    \x7d;"]

/-! ## FieldInfo specializations and includes -/

/-- The FieldInfo specialization lines emitted for one updateable member. -/
def fieldInfoEntry (e : ParsedEntity) (traits_path : String) (m : DataMember) :
    List String :=
  let a := e.annot
  let is_timestamp := a.timestamps.contains m.name
  let is_nullable := m.is_optional
  let enum_mapping := findEnumMapping a m.name
  let value_type :=
    if enum_mapping.isSome || m.is_raw_json then "std::string"
    else if is_nullable then m.inner_type
    else m.cpp_type
  ["template<>",
   "struct " ++ traits_path ++ "::FieldInfo<" ++ traits_path ++ "::Field::" ++
     m.name ++ "> \x7b",
   "    using value_type = " ++ value_type ++ ";",
   "    static constexpr const char* column_name = \"\\\"" ++ m.col_name ++ "\\\"\";",
   "    static constexpr bool is_timestamp = " ++
     (if is_timestamp then "true" else "false") ++ ";",
   "    static constexpr bool is_nullable = " ++
     (if is_nullable then "true" else "false") ++ ";",
   "\x7d;", ""]

/-- Embedding of MappingGenerator._generate_field_info. -/
def fieldInfoLines (e : ParsedEntity) (mapping_name : String)
    (updateable : List DataMember) : List String :=
  if updateable = [] ∨ e.annot.read_only then []
  else (updateable.map (fieldInfoEntry e (mapping_name ++ "::TraitsType"))).flatten

/-- Embedding of MappingGenerator._generate_includes; the include path of
the struct header is a parameter because the Python code derives it from
filesystem paths (os.path.relpath), which are outside the modelled core. -/
def includesLines (e : ParsedEntity) (struct_include : String) : List String :=
  let a := e.annot
  ["#include <cstdint>", "#include <optional>", "#include <string>",
   "#include <string_view>"]
  ++ (if a.is_composite then ["#include <array>", "#include <tuple>"] else [])
  ++ (if a.json_fields ≠ [] then ["#include <glaze/glaze.hpp>"] else [])
  ++ (if e.members.any (fun m =>
        m.cpp_type = "std::vector<char>" || m.inner_type = "std::vector<char>")
      then ["#include <vector>"] else [])
  ++ ["#include <jcailloux/relais/wrapper/EntityWrapper.h>",
      "#include \"" ++ struct_include ++ "\""]
  ++ (if a.has_list then
      ["#include <jcailloux/relais/wrapper/ListWrapper.h>",
       "#include <jcailloux/relais/list/decl/FilterDescriptor.h>",
       "#include <jcailloux/relais/list/decl/SortDescriptor.h>"]
      else [])

/-! ## glz::meta discovery (regex searches of the Python source, embedded as
deterministic character scanners with the same leftmost-match and lazy-group
semantics) -/

/-- Opening brace character (written by code point to keep brace characters
out of the verification text). -/
def lbrace : Char := Char.ofNat 123

/-- Closing brace character. -/
def rbrace : Char := Char.ofNat 125

/-- Match a literal at the head of the input, returning the remainder. -/
def dropLit (lit : List Char) (s : List Char) : Option (List Char) :=
  if lit.isPrefixOf s then some (s.drop lit.length) else none

/-- Skip a possibly empty run of regex whitespace. -/
def skipWs (s : List Char) : List Char := s.dropWhile pyIsSpace

/-- Decide whether a maximal word-or-colon run can be split as an optional
namespace qualification (one or more word-or-colon groups each ending in two
colons) followed by exactly the bare type name, as the regex
(?:[word:]+::)*bare demands when followed by a non-word character. -/
def qualMatch (bare run : List Char) : Bool :=
  bare.isSuffixOf run &&
  (let pre := run.take (run.length - bare.length)
   pre.isEmpty || (decide (3 ≤ pre.length) && [':', ':'].isSuffixOf pre))

/-- Match the header pattern struct ws+ glz::meta ws* < ws* qualified-name
ws* > at the head of the input, returning the remainder after the closing
angle bracket. -/
def matchMetaHeadAt (bare : List Char) (s : List Char) : Option (List Char) :=
  match dropLit ("struct".data) s with
  | none => none
  | some s1 =>
    match s1 with
    | [] => none
    | c :: _ =>
      if pyIsSpace c then
        match dropLit ("glz::meta".data) (skipWs s1) with
        | none => none
        | some s3 =>
          match dropLit (['<']) (skipWs s3) with
          | none => none
          | some s5 =>
            let s6 := skipWs s5
            let run := s6.takeWhile isWordColon
            let rest := s6.dropWhile isWordColon
            if qualMatch bare run then
              match dropLit (['>']) (skipWs rest) with
              | none => none
              | some s8 => some s8
            else none
      else none

/-- Search the whole text for the header pattern; embeds the re.search calls
of _generate_struct_meta and _generate_enum_metas, whose pattern stops at
the closing angle bracket. -/
def containsMetaHeaderAux (bare : List Char) : List Char → Bool
  | [] => false
  | c :: cs => (matchMetaHeadAt bare (c :: cs)).isSome || containsMetaHeaderAux bare cs

/-- Boolean wrapper of the header search on strings. -/
def containsMetaHeader (source bare : String) : Bool :=
  containsMetaHeaderAux bare.data source.data

/-- Extract the lazy body group of the pattern: the shortest prefix of the
input followed by a closing brace, optional whitespace and a semicolon. -/
def extractBody : List Char → Option (List Char)
  | [] => none
  | c :: cs =>
    if c = rbrace && (match skipWs cs with | ';' :: _ => true | _ => false) then
      some []
    else (extractBody cs).map (fun b => c :: b)

/-- Match the full _parse_glz_enumerate pattern at the head of the input:
the header followed by ws*, an opening brace and the lazy body group. -/
def matchEnumMetaAt (bare : List Char) (s : List Char) : Option (List Char) :=
  match matchMetaHeadAt bare s with
  | none => none
  | some rest =>
    match skipWs rest with
    | c :: body => if c = lbrace then extractBody body else none
    | [] => none

/-- Leftmost full match of the _parse_glz_enumerate pattern over the text,
returning the body group. -/
def findEnumMetaBodyAux (bare : List Char) : List Char → Option (List Char)
  | [] => none
  | c :: cs =>
    match matchEnumMetaAt bare (c :: cs) with
    | some b => some b
    | none => findEnumMetaBodyAux bare cs

/-- Return the remainder after the first occurrence of a literal. -/
def afterLit (lit : List Char) : List Char → Option (List Char)
  | [] => none
  | c :: cs =>
    if lit.isPrefixOf (c :: cs) then some ((c :: cs).drop lit.length)
    else afterLit lit cs

/-- The lazy group of glz::enumerate(...): everything before the first
closing parenthesis. -/
def takeUntilParen : List Char → Option (List Char)
  | [] => none
  | c :: cs =>
    if c = ')' then some []
    else (takeUntilParen cs).map (fun l => c :: l)

/-- Fuelled scanner for the findall pattern: a quoted non-empty string,
optional whitespace, a comma, optional whitespace and a word; failed
attempts resume one character after the opening quote, successful matches
resume after the match, exactly as re.findall. Fuel at least the input
length suffices. -/
def findPairsFuel : Nat → List Char → List (String × String)
  | 0, _ => []
  | _, [] => []
  | fuel+1, c :: cs =>
    if c = '"' then
      let v := cs.takeWhile (fun ch => ch ≠ '"')
      let rest := cs.dropWhile (fun ch => ch ≠ '"')
      match rest with
      | '"' :: rest2 =>
        if v ≠ [] then
          match skipWs rest2 with
          | ',' :: rest4 =>
            let rest5 := skipWs rest4
            let w := rest5.takeWhile isWordChar
            let rest6 := rest5.dropWhile isWordChar
            if w ≠ [] then (String.mk v, String.mk w) :: findPairsFuel fuel rest6
            else findPairsFuel fuel cs
          | _ => findPairsFuel fuel cs
        else findPairsFuel fuel cs
      | _ => findPairsFuel fuel cs
    else findPairsFuel fuel cs

/-- Embedding of MappingGenerator._parse_glz_enumerate: find the glz::meta
specialization of the bare type name, then the glz::enumerate call inside
its body, then collect the (string, member) pairs. -/
def parseGlzEnumerate (source_content cpp_type : String) :
    List (String × String) :=
  let bare := (pySplit cpp_type ("::")).getLastD cpp_type
  match findEnumMetaBodyAux bare.data source_content.data with
  | none => []
  | some body =>
    match afterLit ("glz::enumerate(".data) body with
    | none => []
    | some rest =>
      match takeUntilParen rest with
      | none => []
      | some content => findPairsFuel (content.length + 1) content

/-! ## Auto-enum resolution (MappingGenerator._resolve_auto_enums) -/

/-- The ValueError message raised when an auto enum cannot be resolved,
character for character as the Python f-string. -/
def autoEnumError (e : ParsedEntity) (em : EnumMapping) : String :=
  let enum_fqn := qualifyType e em.cpp_type
  "@relais enum on field '" ++ em.field_name ++ "': no glz::meta<" ++
  enum_fqn ++ "> with glz::enumerate() found in " ++ e.source_file ++
  ". Either define glz::meta<" ++ enum_fqn ++ "> in the source header, " ++
  "or use explicit mapping: enum=val1:Variant1,val2:Variant2"

/-- Embedding of the loop of _resolve_auto_enums: enums with pairs are kept,
enums without pairs are resolved from the source text, and the first enum
that cannot be resolved aborts the entity with a ValueError. -/
def resolveAutoEnumsList (e : ParsedEntity) (source : String) :
    List EnumMapping → Except String (List EnumMapping)
  | [] => Except.ok []
  | em :: rest =>
    if em.pairs ≠ [] then
      (resolveAutoEnumsList e source rest).map (fun r => em :: r)
    else
      match parseGlzEnumerate source em.cpp_type with
      | [] => Except.error (autoEnumError e em)
      | p :: ps =>
        (resolveAutoEnumsList e source rest).map
          (fun r => { em with pairs := p :: ps } :: r)

/-- Embedding of MappingGenerator._resolve_auto_enums: the Python method
mutates entity.annot.enums in place; the embedding returns the updated
entity (or the error of the raised ValueError). -/
def resolveAutoEnums (e : ParsedEntity) (source : String) :
    Except String ParsedEntity :=
  (resolveAutoEnumsList e source e.annot.enums).map
    (fun enums => { e with annot := { e.annot with enums := enums } })

/-! ## glz::meta emission passes -/

/-- Embedding of MappingGenerator._generate_struct_meta. -/
def structMetaLines (e : ParsedEntity) (source_content : String) : List String :=
  if containsMetaHeader source_content e.class_name then []
  else
    ["template<>",
     "struct glz::meta<" ++ structFqn e ++ "> \x7b",
     "    using T = " ++ structFqn e ++ ";",
     "    static constexpr auto value = glz::object("]
    ++ glazePairLines (e.members.map DataMember.name)
    ++ ["    );", "\x7d;"]

/-- The glz::meta lines emitted for one enum type. -/
def enumMetaEntryLines (enum_fqn : String) (pairs : List (String × String)) :
    List String :=
  ["template<>",
   "struct glz::meta<" ++ enum_fqn ++ "> \x7b",
   "    using enum " ++ enum_fqn ++ ";",
   "    static constexpr auto value = glz::enumerate("]
  ++ pairs.enum.map (fun p =>
      "        \"" ++ p.2.1 ++ "\", " ++ p.2.2 ++
        (if p.1 < pairs.length - 1 then "," else ""))
  ++ ["    );", "\x7d;"]

/-- The loop of _generate_enum_metas, threading the set of already emitted
type names (the Python code adds a type to the set before checking whether
the source already specializes it). -/
def enumMetasAux (e : ParsedEntity) (src : String) :
    List EnumMapping → List String → List String
  | [], _ => []
  | em :: rest, seen =>
    if em.cpp_type = "" then enumMetasAux e src rest seen
    else
      let enum_fqn := qualifyType e em.cpp_type
      if seen.contains enum_fqn then enumMetasAux e src rest seen
      else
        let bare := (pySplit em.cpp_type ("::")).getLastD em.cpp_type
        if containsMetaHeader src bare then
          enumMetasAux e src rest (enum_fqn :: seen)
        else
          enumMetaEntryLines enum_fqn em.pairs ++
            enumMetasAux e src rest (enum_fqn :: seen)

/-- Embedding of MappingGenerator._generate_enum_metas. -/
def enumMetasLines (e : ParsedEntity) (src : String) : List String :=
  enumMetasAux e src e.annot.enums []

/-- Embedding of MappingGenerator._generate_row_view_meta. -/
def rowViewMetaLines (mapping_name : String) : List String :=
  let fqn := "entity::generated::" ++ mapping_name
  ["template<>",
   "struct glz::meta<" ++ fqn ++ "::RowView> \x7b",
   "    using T = " ++ fqn ++ "::RowView;",
   "    static constexpr auto value = " ++ fqn ++ "::glaze_value<T>;",
   "\x7d;"]

/-! ## Mapping struct and full file assembly -/

/-- The Col enum entries: every member in declared order with its declared
position as value. -/
def colEntries (e : ParsedEntity) : String :=
  String.intercalate (", ")
    (e.members.enum.map (fun p => p.2.name ++ " = " ++ toString p.1))

/-- Embedding of MappingGenerator._generate_mapping_struct. -/
def mappingStructLines (e : ParsedEntity) (updateable : List DataMember) :
    List String :=
  let a := e.annot
  let mapping_name := e.class_name ++ "Mapping"
  let table_name := resolveTableName e
  ["struct " ++ mapping_name ++ " \x7b",
   "    static constexpr bool read_only = " ++
     (if a.read_only then "true" else "false") ++ ";",
   "    static constexpr const char* table_name = \"" ++ table_name ++ "\";"]
  ++ (if a.is_composite then
      ["    static constexpr std::array<const char*, " ++
        toString a.primary_keys.length ++ "> primary_key_columns = \x7b" ++
        String.intercalate (", ")
          (a.primary_keys.map (fun pk => "\"" ++ colOf e pk ++ "\"")) ++ "\x7d;"]
      else
      ["    static constexpr const char* primary_key_column = \"" ++
        colOf e a.primary_key ++ "\";"])
  ++ ["",
      "    enum Col : uint8_t \x7b " ++ colEntries e ++ " \x7d;",
      ""]
  ++ sqlStructLines e table_name ++ [""]
  ++ traitsTypeLines a updateable ++ [""]
  ++ keyLines a ++ [""]
  ++ (if a.partition_keys ≠ [] then partitionHintLines a ++ [""] else [])
  ++ fromRowLines e
  ++ (if ¬ a.read_only then [""] ++ toInsertParamsLines e else [])
  ++ (if ¬ a.read_only ∧ a.is_composite then [""] ++ toUpdateParamsLines e else [])
  ++ [""] ++ dynamicSizeLines e
  ++ [""] ++ glazeValueLines e
  ++ [""] ++ rowViewSectionLines e
  ++ (if a.has_list then [""] ++ embeddedDescriptorLines e else [])
  ++ ["\x7d;"]

/-- The separator banner comment emitted before the wrapper alias block. -/
def eqBanner : String :=
  "// " ++ String.mk (List.replicate 76 (Char.ofNat 61))

/-- The full file assembly of MappingGenerator.generate after auto-enum
resolution has succeeded (list of emitted lines; the Python method joins
them with newlines before the driver writes them to disk). -/
def generateLines (e : ParsedEntity) (updateable : List DataMember)
    (source_content struct_include : String) : List String :=
  let a := e.annot
  let mapping_name := e.class_name ++ "Mapping"
  let wrapper_name := e.class_name ++ "Wrapper"
  let struct_meta := structMetaLines e source_content
  let enum_metas := enumMetasLines e source_content
  let row_view_meta := rowViewMetaLines mapping_name
  ["// GENERATED AUTOMATICALLY - DO NOT MODIFY",
   "// Source: " ++ e.source_file,
   "",
   "#pragma once",
   ""]
  ++ includesLines e struct_include
  ++ [""]
  ++ ["namespace entity::generated \x7b", ""]
  ++ mappingStructLines e updateable
  ++ [""]
  ++ fieldInfoLines e mapping_name updateable
  ++ [eqBanner,
      "// " ++ wrapper_name ++ " — public API type",
      eqBanner,
      "",
      "using " ++ wrapper_name ++ " = jcailloux::relais::wrapper::EntityWrapper<",
      "    " ++ structFqn e ++ ", " ++ mapping_name ++ ">;"]
  ++ (if a.has_list then
      ["",
       "using " ++ e.class_name ++
         "ListWrapper = jcailloux::relais::wrapper::ListWrapper<" ++
         wrapper_name ++ ">;"]
      else [])
  ++ ["", "\x7d  // namespace entity::generated"]
  ++ (if struct_meta ≠ [] then [""] ++ struct_meta else [])
  ++ (if enum_metas ≠ [] then [""] ++ enum_metas else [])
  ++ (if row_view_meta ≠ [] then [""] ++ row_view_meta else [])
  ++ [""]

/-- Embedding of MappingGenerator.generate: compute the updateable fields,
resolve auto enums against the source text (re-read by the Python code from
entity.source_file; the content is a parameter here) and assemble the
output; a ValueError of the resolution step aborts the entity. -/
def generate (e : ParsedEntity) (source_content struct_include : String) :
    Except String (List String) :=
  let updateable := getUpdateableFields e
  match resolveAutoEnums e source_content with
  | Except.error msg => Except.error msg
  | Except.ok e2 =>
    Except.ok (generateLines e2 updateable source_content struct_include)

/-! ## General lemmas used by the claim proofs -/

lemma strNe_pre (pre x t : String)
    (h : pre.data.isPrefixOf t.data = false) : pre ++ x ≠ t := by
  intro he
  have hd : pre.data ++ x.data = t.data := by
    rw [← String.data_append, he]
  have hp : pre.data.isPrefixOf t.data = true :=
    (List.isPrefixOf_iff_prefix).mpr ⟨x.data, hd⟩
  rw [hp] at h
  exact Bool.noConfusion h

lemma strNe_suf (x suf t : String)
    (h : suf.data.isSuffixOf t.data = false) : x ++ suf ≠ t := by
  intro he
  have hd : x.data ++ suf.data = t.data := by
    rw [← String.data_append, he]
  have hp : suf.data.isSuffixOf t.data = true :=
    (List.isSuffixOf_iff_suffix).mpr ⟨x.data, hd⟩
  rw [hp] at h
  exact Bool.noConfusion h

lemma listContainsSub_self (p y : List Char) :
    listContainsSub p (p ++ y) = true := by
  have hp : p.isPrefixOf (p ++ y) = true :=
    (List.isPrefixOf_iff_prefix).mpr ⟨y, rfl⟩
  cases p with
  | nil =>
    cases y with
    | nil => simp [listContainsSub, List.isPrefixOf]
    | cons c cs => simp [listContainsSub]
  | cons a as =>
    simp only [listContainsSub, List.append_eq, List.cons_append] at hp ⊢
    rw [hp]
    simp

lemma listContainsSub_mid (p x y : List Char) :
    listContainsSub p (x ++ (p ++ y)) = true := by
  induction x with
  | nil => simp only [List.nil_append]; exact listContainsSub_self p y
  | cons a xs ih =>
    simp only [List.cons_append, listContainsSub, List.append_eq]
    rw [ih]
    simp

lemma containsSub_mid (x p y : String) :
    containsSub (x ++ (p ++ y)) p = true := by
  unfold containsSub
  rw [String.data_append, String.data_append]
  exact listContainsSub_mid p.data x.data y.data

lemma listContainsSub_single (c : Char) (l : List Char) :
    listContainsSub [c] l = l.contains c := by
  induction l with
  | nil => simp [listContainsSub, List.isPrefixOf]
  | cons d ds ih =>
    simp only [listContainsSub, List.isPrefixOf, ih, List.contains_cons,
      Bool.and_true]

/-! ## Splitter lemmas (behaviour of the embedded str.split) -/

lemma splitFuel_fuel (sep : List Char) (l acc : List Char) (f1 f2 : Nat)
    (h1 : l.length ≤ f1) (h2 : l.length ≤ f2) :
    splitFuel sep f1 l acc = splitFuel sep f2 l acc := by
  induction f1 generalizing l acc f2 with
  | zero =>
    have hl : l = [] := List.eq_nil_of_length_eq_zero (Nat.le_zero.mp h1)
    subst hl
    cases f2 <;> simp [splitFuel]
  | succ f ih =>
    cases l with
    | nil => cases f2 <;> simp [splitFuel]
    | cons c cs =>
      cases f2 with
      | zero => simp at h2
      | succ f2a =>
        simp only [splitFuel]
        by_cases hcond : sep ≠ [] ∧ sep.isPrefixOf (c :: cs)
        · rw [if_pos hcond, if_pos hcond]
          have hl1 : (cs.drop (sep.length - 1)).length ≤ f := by
            simp only [List.length_drop]
            simp only [List.length_cons] at h1
            omega
          have hl2 : (cs.drop (sep.length - 1)).length ≤ f2a := by
            simp only [List.length_drop]
            simp only [List.length_cons] at h2
            omega
          rw [ih _ _ _ hl1 hl2]
        · rw [if_neg hcond, if_neg hcond]
          exact ih cs (c :: acc) f2a
            (by simp only [List.length_cons] at h1; omega)
            (by simp only [List.length_cons] at h2; omega)

lemma splitFuel_no_match (sep : List Char) (l acc : List Char) (fuel : Nat)
    (hf : l.length ≤ fuel) (h : listContainsSub sep l = false) :
    splitFuel sep fuel l acc = [acc.reverse ++ l] := by
  induction l generalizing acc fuel with
  | nil => cases fuel <;> simp [splitFuel]
  | cons c cs ih =>
    cases fuel with
    | zero => simp at hf
    | succ fu =>
      simp only [listContainsSub, Bool.or_eq_false_iff] at h
      simp only [splitFuel]
      rw [if_neg (by
        intro hc
        rw [h.1] at hc
        exact Bool.noConfusion hc.2)]
      rw [ih (c :: acc) fu (by simp only [List.length_cons] at hf; omega) h.2]
      simp

lemma splitFuel_char_boundary (c : Char) (l1 rest acc : List Char) (fuel : Nat)
    (hf : (l1 ++ c :: rest).length ≤ fuel) (h1 : c ∉ l1) :
    splitFuel [c] fuel (l1 ++ c :: rest) acc =
      (acc.reverse ++ l1) :: splitFuel [c] rest.length rest [] := by
  induction l1 generalizing acc fuel with
  | nil =>
    cases fuel with
    | zero => simp at hf
    | succ fu =>
      simp only [List.nil_append, splitFuel]
      rw [if_pos ⟨by simp, (List.isPrefixOf_iff_prefix).mpr ⟨rest, rfl⟩⟩]
      simp only [List.length_cons, List.length_nil, Nat.zero_add]
      have hdrop : rest.drop (1 - 1) = rest := by simp
      rw [hdrop]
      have hfu : rest.length ≤ fu := by
        simp only [List.nil_append, List.length_cons] at hf
        omega
      rw [splitFuel_fuel [c] rest [] fu rest.length hfu (le_refl _)]
      simp
  | cons d ds ih =>
    cases fuel with
    | zero => simp at hf
    | succ fu =>
      have hd : d ≠ c := by
        intro hdc
        exact h1 (by simp [hdc])
      simp only [List.cons_append, splitFuel]
      rw [if_neg (by
        intro hc
        have hpre : ([c].isPrefixOf (d :: (ds ++ c :: rest))) = true := hc.2
        have hcd : c = d := by simpa [List.isPrefixOf] using hpre
        exact hd hcd.symm)]
      simp only [List.append_eq]
      rw [ih (d :: acc) fu
        (by simp only [List.cons_append, List.length_cons] at hf; omega)
        (fun hm => h1 (List.mem_cons_of_mem _ hm))]
      simp

lemma strEq_of_data (s t : String) (h : s.data = t.data) : s = t := by
  cases s
  cases t
  exact congrArg String.mk h

lemma pySplit_no_colon (s : String) (h : ':' ∉ s.data) :
    pySplit s (":") = [s] := by
  unfold pySplit
  rw [show (":" : String).data = [':'] from rfl]
  rw [splitFuel_no_match [':'] s.data [] s.data.length (le_refl _)
    (by rw [listContainsSub_single]; simpa using h)]
  simp

lemma pySplit_two (pre x : String) (hpre : ':' ∉ pre.data) (hx : ':' ∉ x.data) :
    pySplit (pre ++ ":" ++ x) (":") = [pre, x] := by
  have hdata : (pre ++ ":" ++ x).data = pre.data ++ ':' :: x.data := by
    simp [String.data_append]
  unfold pySplit
  rw [show (":" : String).data = [':'] from rfl, hdata]
  rw [splitFuel_char_boundary ':' pre.data x.data [] _ (le_refl _) hpre]
  rw [splitFuel_no_match [':'] x.data [] x.data.length (le_refl _)
    (by rw [listContainsSub_single]; simpa using hx)]
  simp

lemma pySplit_three (pre x suf : String) (hpre : ':' ∉ pre.data)
    (hx : ':' ∉ x.data) (hsuf : ':' ∉ suf.data) :
    pySplit (pre ++ ":" ++ x ++ ":" ++ suf) (":") = [pre, x, suf] := by
  have hdata : (pre ++ ":" ++ x ++ ":" ++ suf).data =
      pre.data ++ ':' :: (x.data ++ ':' :: suf.data) := by
    simp [String.data_append]
  unfold pySplit
  rw [show (":" : String).data = [':'] from rfl, hdata]
  rw [splitFuel_char_boundary ':' pre.data (x.data ++ ':' :: suf.data) [] _
    (le_refl _) hpre]
  rw [splitFuel_char_boundary ':' x.data suf.data [] _ (le_refl _) hx]
  rw [splitFuel_no_match [':'] suf.data [] suf.data.length (le_refl _)
    (by rw [listContainsSub_single]; simpa using hsuf)]
  simp

/-! ## Claim C5 — filter/sort tag arity resolution -/

/-- C5 counterexample: the three-token forms of the tag grammar pass the
third token through without validating it, so the produced operator (and
sort direction) can fall outside the documented sets: the tag
filterable:p:bogus yields op bogus, and sortable:p:sideways yields
direction sideways. -/
theorem C5_counterexample :
    parseFilterableTag ("f") ("filterable:p:bogus") =
      { param := "p", field := "f", op := "bogus" } ∧
    ¬ ((parseFilterableTag ("f") ("filterable:p:bogus")).op ∈
        ["eq", "ne", "gt", "ge", "lt", "le"]) ∧
    parseSortableTag ("f") ("sortable:p:sideways") =
      { param := "p", field := "f", direction := "sideways" } ∧
    ¬ ((parseSortableTag ("f") ("sortable:p:sideways")).direction ∈ DIRECTIONS) := by
  refine ⟨by decide, by decide, by decide, by decide⟩

/-- C5 (amended): the arity table of the filterable/sortable tag grammar
holds exactly as specified for the one- and two-token forms, with the
aliases gte and lte normalised to ge and le; the three-token forms bind the
second token as HTTP parameter and pass the third token through (operator
after alias replacement, direction verbatim) without membership validation,
so only the one- and two-token forms are guaranteed to produce operators in
the documented set. The token x below stands for any single colon-free
token that is neither a known operator nor a direction. -/
theorem C5_tag_arity (f x : String)
    (hx : ':' ∉ x.data) (hops : x ∉ KNOWN_OPS) (hdirs : x ∉ DIRECTIONS) :
    parseFilterableTag f ("filterable") = { param := f, field := f, op := "eq" } ∧
    parseFilterableTag f ("filterable:ge") = { param := f, field := f, op := "ge" } ∧
    parseFilterableTag f ("filterable:gte") = { param := f, field := f, op := "ge" } ∧
    parseFilterableTag f ("filterable:lte") = { param := f, field := f, op := "le" } ∧
    parseFilterableTag f ("filterable" ++ ":" ++ x) =
      { param := x, field := f, op := "eq" } ∧
    parseFilterableTag f ("filterable" ++ ":" ++ x ++ ":" ++ "le") =
      { param := x, field := f, op := "le" } ∧
    parseSortableTag f ("sortable") = { param := f, field := f, direction := "desc" } ∧
    parseSortableTag f ("sortable:asc") = { param := f, field := f, direction := "asc" } ∧
    parseSortableTag f ("sortable" ++ ":" ++ x) =
      { param := x, field := f, direction := "desc" } ∧
    parseSortableTag f ("sortable" ++ ":" ++ x ++ ":" ++ "asc") =
      { param := x, field := f, direction := "asc" } := by
  refine ⟨?_, ?_, ?_, ?_, ?_, ?_, ?_, ?_, ?_, ?_⟩
  · simp only [parseFilterableTag]
    rw [show pySplit ("filterable") (":") = ["filterable"] from by decide]
  · simp only [parseFilterableTag]
    rw [show pySplit ("filterable:ge") (":") = ["filterable", "ge"] from by decide]
    simp [KNOWN_OPS, show normalizeOp ("ge") = "ge" from by decide]
  · simp only [parseFilterableTag]
    rw [show pySplit ("filterable:gte") (":") = ["filterable", "gte"] from by decide]
    simp [KNOWN_OPS, show normalizeOp ("gte") = "ge" from by decide]
  · simp only [parseFilterableTag]
    rw [show pySplit ("filterable:lte") (":") = ["filterable", "lte"] from by decide]
    simp [KNOWN_OPS, show normalizeOp ("lte") = "le" from by decide]
  · simp only [parseFilterableTag]
    rw [pySplit_two ("filterable") x (by decide) hx]
    simp [hops]
  · simp only [parseFilterableTag]
    rw [pySplit_three ("filterable") x ("le") (by decide) hx (by decide)]
    simp [show normalizeOp ("le") = "le" from by decide]
  · simp only [parseSortableTag]
    rw [show pySplit ("sortable") (":") = ["sortable"] from by decide]
  · simp only [parseSortableTag]
    rw [show pySplit ("sortable:asc") (":") = ["sortable", "asc"] from by decide]
    simp [DIRECTIONS]
  · simp only [parseSortableTag]
    rw [pySplit_two ("sortable") x (by decide) hx]
    simp [hdirs]
  · simp only [parseSortableTag]
    rw [pySplit_three ("sortable") x ("asc") (by decide) hx (by decide)]

/-- C5 witness: the amended theorem applied at the concrete token custom. -/
theorem C5_witness :
    (':' ∉ ("custom" : String).data ∧ "custom" ∉ KNOWN_OPS ∧
      "custom" ∉ DIRECTIONS) ∧
    parseFilterableTag ("f") ("filterable") =
      { param := "f", field := "f", op := "eq" } :=
  ⟨by decide,
   (C5_tag_arity ("f") ("custom") (by decide) (by decide) (by decide)).1⟩

/-! ## Claim C2 — insert/update parameter arity -/

lemma digitChar_isDigit (n : Nat) (h : n < 10) :
    (Nat.digitChar n).isDigit = true := by
  interval_cases n <;> decide

lemma toDigitsCore_digits (fuel n : Nat) (acc : List Char)
    (hacc : ∀ c ∈ acc, c.isDigit = true) :
    ∀ c ∈ Nat.toDigitsCore 10 fuel n acc, c.isDigit = true := by
  induction fuel generalizing n acc with
  | zero => simpa [Nat.toDigitsCore] using hacc
  | succ fu ih =>
    intro c hc
    simp only [Nat.toDigitsCore] at hc
    by_cases h10 : n / 10 = 0
    · rw [if_pos h10] at hc
      rcases List.mem_cons.mp hc with rfl | hmem
      · exact digitChar_isDigit _ (Nat.mod_lt _ (by norm_num))
      · exact hacc _ hmem
    · rw [if_neg h10] at hc
      refine ih (n / 10) _ ?_ c hc
      intro d hd
      rcases List.mem_cons.mp hd with rfl | hmem
      · exact digitChar_isDigit _ (Nat.mod_lt _ (by norm_num))
      · exact hacc _ hmem

lemma repr_digit_chars (n : Nat) : ∀ c ∈ (Nat.repr n).data, c.isDigit = true := by
  intro c hc
  have hdata : (Nat.repr n).data = Nat.toDigitsCore 10 (n + 1) n [] := rfl
  rw [hdata] at hc
  exact toDigitsCore_digits (n + 1) n [] (by simp) c hc

lemma count_dollar_repr (n : Nat) : (Nat.repr n).data.count '$' = 0 := by
  rw [List.count_eq_zero]
  intro hmem
  exact absurd (repr_digit_chars n '$' hmem) (by decide)

lemma count_dollar_placeholder (i : Nat) :
    ("$" ++ toString (i + 1)).data.count '$' = 1 := by
  have hts : (toString (i + 1) : String) = Nat.repr (i + 1) := rfl
  rw [hts, String.data_append, List.count_append, count_dollar_repr]
  decide

lemma intercalate_go_data (acc s : String) (l : List String) :
    (String.intercalate.go acc s l).data =
      acc.data ++ (l.map (fun x => s.data ++ x.data)).flatten := by
  induction l generalizing acc with
  | nil => simp [String.intercalate.go]
  | cons a as ih =>
    rw [show String.intercalate.go acc s (a :: as) =
      String.intercalate.go (acc ++ s ++ a) s as from rfl]
    rw [ih]
    simp [String.data_append, List.append_assoc]

lemma count_intercalate (s : String) (l : List String) (c : Char)
    (hs : s.data.count c = 0) :
    (String.intercalate s l).data.count c =
      (l.map (fun x => x.data.count c)).sum := by
  cases l with
  | nil => simp [String.intercalate]
  | cons a as =>
    rw [show String.intercalate s (a :: as) = String.intercalate.go a s as from rfl]
    rw [intercalate_go_data, List.count_append, List.count_flatten, List.map_map]
    simp only [List.map_cons, List.sum_cons]
    congr 1
    refine congrArg List.sum (List.map_congr_left ?_)
    intro x _
    simp [Function.comp, List.count_append, hs]

lemma sum_map_one {α : Type} (l : List α) :
    (l.map (fun _ => (1 : Nat))).sum = l.length := by
  induction l <;> simp [*, Nat.add_comm]

lemma count_dollar_insertParams (e : ParsedEntity) :
    (insertParamsStr e).data.count '$' = (insertCols e).length := by
  unfold insertParamsStr
  rw [count_intercalate _ _ _ (by decide), List.map_map]
  have hmap : List.map ((fun x : String => List.count '$' x.data) ∘
        fun i => "$" ++ toString (i + 1)) (List.range (insertCols e).length) =
      List.map (fun _ => (1 : Nat)) (List.range (insertCols e).length) := by
    refine List.map_congr_left ?_
    intro i _
    exact count_dollar_placeholder i
  rw [hmap, sum_map_one]
  simp

/-- C2: the VALUES list of the generated INSERT statement holds exactly one
dollar placeholder per member that is not db-managed; the UPDATE statement
holds one SET clause per member that is neither an (effective) primary key
nor db-managed; the SET placeholders continue after the WHERE-clause key
placeholders, starting at the key-column count plus one, while the key
placeholders are numbered from one. -/
theorem C2_parameter_arity (e : ParsedEntity) :
    (insertParamsStr e).data.count '$' =
      (e.members.filter (fun m => !(e.annot.db_managed.contains m.name))).length ∧
    (updateSetClauses e).length =
      (e.members.filter (fun m => !((pkSet e).contains m.name) &&
        !(e.annot.db_managed.contains m.name))).length ∧
    updateSetClauses e =
      ((List.range (updateCols e).length).zip (updateCols e)).map
        (fun p => p.2 ++ "=$" ++ toString (p.1 + (pkCols e).length + 1)) ∧
    (updateSetClauses e).head? = (updateCols e).head?.map
      (fun col => col ++ "=$" ++ toString ((pkCols e).length + 1)) ∧
    pkWhereClauses e =
      ((List.range (pkCols e).length).zip (pkCols e)).map
        (fun p => p.2 ++ " = $" ++ toString (p.1 + 1)) := by
  refine ⟨?_, ?_, ?_, ?_, ?_⟩
  · rw [count_dollar_insertParams]
    simp [insertCols]
  · simp [updateSetClauses, updateCols]
  · simp [updateSetClauses, List.enum_eq_zip_range]
  · cases hc : updateCols e with
    | nil => simp [updateSetClauses, hc]
    | cons col rest => simp [updateSetClauses, hc]
  · simp [pkWhereClauses, List.enum_eq_zip_range]

/-! ## Claim C3 — composite-key propagation -/

/-- C3: for an entity with at least two primary-key fields, the WHERE clause
used by the select-by-key, UPDATE (when generated, i.e. for writable
entities) and delete-by-key statements carries one equality test per key
column joined by AND, and the batch-select WHERE clause is the multi-column
membership form (key tuple IN a SELECT of one unnest per key array) rather
than the single-column ANY form. -/
theorem C3_composite_key (e : ParsedEntity) (tn : String)
    (h : 2 ≤ e.annot.primary_keys.length) :
    pkCols e = e.annot.primary_keys.map (colOf e) ∧
    (pkWhereClauses e).length = e.annot.primary_keys.length ∧
    pkWhere e = String.intercalate (" AND ") (pkWhereClauses e) ∧
    ("            \"SELECT " ++ String.intercalate (", ") (allCols e) ++
      " FROM " ++ tn ++ " WHERE " ++ pkWhere e ++ "\";") ∈ sqlStructLines e tn ∧
    (e.annot.read_only = false →
      ("            \"UPDATE " ++ tn ++ " SET " ++ updateSet e ++ " WHERE " ++
        pkWhere e ++ "\";") ∈ sqlStructLines e tn) ∧
    ("            \"DELETE FROM " ++ tn ++ " WHERE " ++ pkWhere e ++ "\";") ∈
      sqlStructLines e tn ∧
    batchWhere e = "(" ++ String.intercalate (", ") (pkCols e) ++
      ") IN (SELECT " ++ String.intercalate (", ")
        ((List.range (pkCols e).length).map
          (fun i => "unnest($" ++ toString (i + 1) ++ ")")) ++ ")" ∧
    ("            \"SELECT " ++ String.intercalate (", ") (allCols e) ++
      " FROM " ++ tn ++ " WHERE " ++ batchWhere e ++ "\";") ∈
      sqlStructLines e tn := by
  have hne : e.annot.primary_keys ≠ [] := by
    intro hnil
    rw [hnil] at h
    simp at h
  have hpk : pkCols e = e.annot.primary_keys.map (colOf e) := by
    simp [pkCols, hne]
  have hlen : (pkCols e).length = e.annot.primary_keys.length := by
    rw [hpk]
    simp
  refine ⟨hpk, ?_, rfl, ?_, ?_, ?_, ?_, ?_⟩
  · simp [pkWhereClauses, hlen]
  · simp [sqlStructLines]
  · intro hro
    simp [sqlStructLines, hro, updateSet]
  · simp [sqlStructLines]
  · unfold batchWhere
    rw [if_neg (by rw [hlen]; omega)]
  · simp [sqlStructLines]

/-- C3 witness: a concrete entity with two primary-key members. -/
def c3MemberA : DataMember :=
  { name := "a", cpp_type := "int64_t", tags := ["primary_key"] }

/-- C3 witness member two. -/
def c3MemberB : DataMember :=
  { name := "b", cpp_type := "int64_t", tags := ["primary_key"] }

/-- C3 witness payload member. -/
def c3MemberV : DataMember :=
  { name := "v", cpp_type := "std::string" }

/-- C3 witness entity. -/
def c3Entity : ParsedEntity :=
  { class_name := "Pair", nspace := "app",
    annot := applyMemberAnnotations {} [c3MemberA, c3MemberB, c3MemberV],
    members := [c3MemberA, c3MemberB, c3MemberV], source_file := "Pair.h" }

/-- C3 witness: the theorem applied to the concrete composite entity. -/
theorem C3_witness :
    2 ≤ c3Entity.annot.primary_keys.length ∧
    pkCols c3Entity = c3Entity.annot.primary_keys.map (colOf c3Entity) :=
  ⟨by decide, (C3_composite_key c3Entity ("pairs") (by decide)).1⟩

/-! ## Claim C7 — primary-key fallback to id -/

/-- C7: when no member is tagged primary_key, generation still succeeds and
every key-based output works with the single fallback key name id: the
primary_key property, the WHERE-clause key columns, the key() accessor, the
updateable-field exclusion set and the primary_key_column constant,
whether or not a member named id exists. -/
theorem C7_id_fallback (e : ParsedEntity) (h : e.annot.primary_keys = []) :
    e.annot.primary_key = "id" ∧
    pkCols e = [colOf e ("id")] ∧
    pkWhere e = colOf e ("id") ++ " = $1" ∧
    pkSet e = ["id"] ∧
    getUpdateableFields e = e.members.filter (fun m =>
      !((["id"] : List String).contains m.name) &&
      !(e.annot.db_managed.contains m.name) &&
      !(e.annot.json_fields.contains m.name)) ∧
    ("        return e.id;") ∈ keyLines e.annot ∧
    (∀ u, ("    static constexpr const char* primary_key_column = \"" ++
      colOf e ("id") ++ "\";") ∈ mappingStructLines e u) ∧
    (e.annot.enums = [] → ∀ src inc,
      generate e src inc =
        Except.ok (generateLines e (getUpdateableFields e) src inc)) := by
  have hpk : e.annot.primary_key = "id" := by
    simp [EntityAnnot.primary_key, h]
  have hcomp : e.annot.is_composite = false := by
    simp [EntityAnnot.is_composite, h]
  refine ⟨hpk, ?_, ?_, ?_, ?_, ?_, ?_, ?_⟩
  · simp [pkCols, h]
  · unfold pkWhere pkWhereClauses
    rw [show pkCols e = [colOf e ("id")] from by simp [pkCols, h]]
    apply strEq_of_data
    simp [String.intercalate, String.intercalate.go, String.data_append]
    decide
  · simp [pkSet, h]
  · simp [getUpdateableFields, h]
  · have hlit : ("        return e." ++ "id" ++ ";") = "        return e.id;" := by
      decide
    simp [keyLines, hcomp, hpk, hlit]
  · intro u
    simp [mappingStructLines, hcomp, hpk]
  · intro henums src inc
    have he2 : ({ e with annot := { e.annot with enums := [] } } :
        ParsedEntity) = e := by
      cases e with
      | mk cn ns a mem sf =>
        cases a
        simp_all
    unfold generate resolveAutoEnums
    rw [henums]
    simp only [resolveAutoEnumsList, Except.map]
    exact congrArg
      (fun x => Except.ok (generateLines x (getUpdateableFields e) src inc)) he2

/-- C7 witness member: the entity has no primary_key tag and no member
named id. -/
def c7Member : DataMember := { name := "title", cpp_type := "std::string" }

/-- C7 witness entity. -/
def c7Entity : ParsedEntity :=
  { class_name := "Note", nspace := "app",
    annot := applyMemberAnnotations {} [c7Member],
    members := [c7Member], source_file := "Note.h" }

/-- C7 witness: the theorem applied to the concrete keyless entity. -/
theorem C7_witness :
    c7Entity.annot.primary_keys = [] ∧
    pkWhere c7Entity = colOf c7Entity ("id") ++ " = $1" :=
  ⟨by decide, (C7_id_fallback c7Entity (by decide)).2.2.1⟩

/-! ## Claim C10 — implicit limit tiers -/

/-- C10: an entity with list configuration but no limits annotation still
receives page-size constants from the fallback tier list 10, 25, 50:
defaultLimit is 10 and maxLimit is 50, both in the embedded ListDescriptor
and in the emitted mapping struct. -/
theorem C10_default_limits (e : ParsedEntity)
    (hl : e.annot.limits = []) (hh : e.annot.has_list = true) :
    ("        static constexpr uint16_t defaultLimit = 10;") ∈
      embeddedDescriptorLines e ∧
    ("        static constexpr uint16_t maxLimit = 50;") ∈
      embeddedDescriptorLines e ∧
    ∀ u, ("        static constexpr uint16_t defaultLimit = 10;") ∈
        mappingStructLines e u ∧
      ("        static constexpr uint16_t maxLimit = 50;") ∈
        mappingStructLines e u := by
  have hdl : ("        static constexpr uint16_t defaultLimit = " ++
      toString ((10 : Int)) ++ ";") =
      "        static constexpr uint16_t defaultLimit = 10;" := by decide
  have hml : ("        static constexpr uint16_t maxLimit = " ++
      toString ((50 : Int)) ++ ";") =
      "        static constexpr uint16_t maxLimit = 50;" := by decide
  have h1 : ("        static constexpr uint16_t defaultLimit = 10;") ∈
      embeddedDescriptorLines e := by
    simp only [embeddedDescriptorLines, hl]
    simp [hdl]
  have h2 : ("        static constexpr uint16_t maxLimit = 50;") ∈
      embeddedDescriptorLines e := by
    simp only [embeddedDescriptorLines, hl]
    simp [hml]
  refine ⟨h1, h2, ?_⟩
  intro u
  constructor
  · simp [mappingStructLines, hh, h1]
  · simp [mappingStructLines, hh, h2]

/-- C10 witness member: a sortable member and no limits annotation. -/
def c10Member : DataMember :=
  { name := "t", cpp_type := "std::string",
    sort_configs := [{ param := "t", field := "t" }] }

/-- C10 witness entity. -/
def c10Entity : ParsedEntity :=
  { class_name := "Log", nspace := "",
    annot := applyMemberAnnotations {} [c10Member],
    members := [c10Member], source_file := "Log.h" }

/-- C10 witness: the theorem applied to the concrete entity. -/
theorem C10_witness :
    (c10Entity.annot.limits = [] ∧ c10Entity.annot.has_list = true) ∧
    ("        static constexpr uint16_t defaultLimit = 10;") ∈
      embeddedDescriptorLines c10Entity :=
  ⟨⟨by decide, by decide⟩, (C10_default_limits c10Entity (by decide) (by decide)).1⟩

/-! ## Claim C1 — column-order consistency -/

/-- C1 counterexample member: the primary key. -/
def c1MemberId : DataMember :=
  { name := "id", cpp_type := "int64_t", tags := ["primary_key"] }

/-- C1 counterexample member: a db-managed column. -/
def c1MemberCreated : DataMember :=
  { name := "created", cpp_type := "std::string", tags := ["db_managed"] }

/-- C1 counterexample entity. -/
def c1Entity : ParsedEntity :=
  { class_name := "Item", nspace := "app",
    annot := applyMemberAnnotations {} [c1MemberId, c1MemberCreated],
    members := [c1MemberId, c1MemberCreated], source_file := "Item.h" }

/-- C1 counterexample: for an entity with a db-managed member, the INSERT
column list is not the declared member list — it omits the db-managed
column — so the claim that all the listed column orders equal the declared
member order fails; the emitted INSERT statement shows the omission. -/
theorem C1_counterexample :
    c1Entity.members.map DataMember.col_name = ["id", "created"] ∧
    insertCols c1Entity = ["id"] ∧
    insertCols c1Entity ≠ c1Entity.members.map DataMember.col_name ∧
    ("            \"INSERT INTO item (id) VALUES ($1) RETURNING id, created\";")
      ∈ sqlStructLines c1Entity (resolveTableName c1Entity) := by
  refine ⟨by decide, by decide, by decide, by decide⟩

/-- C1 (amended): the SELECT list, the RETURNING list, the batch SELECT
list, the Col enum indices, the fromRow decode sequence and the glaze_value
field order are all derived from the members in declared order — positions
agree across all of them — while the INSERT column list is the declared
order restricted to the members that are not db-managed (a subsequence of
the declared order, not the full list). -/
theorem C1_column_orders (e : ParsedEntity) (tn : String) :
    allCols e = e.members.map DataMember.col_name ∧
    (sqlStructLines e tn)[2]? =
      some ("            \"" ++ String.intercalate (", ")
        (e.members.map DataMember.col_name) ++ "\";") ∧
    (sqlStructLines e tn)[4]? =
      some ("            \"SELECT " ++ String.intercalate (", ")
        (e.members.map DataMember.col_name) ++ " FROM " ++ tn ++ " WHERE " ++
        pkWhere e ++ "\";") ∧
    colEntries e = String.intercalate (", ")
      (((List.range e.members.length).zip (e.members.map DataMember.name)).map
        (fun p => p.2 ++ " = " ++ toString p.1)) ∧
    fromRowLines e =
      ["    template<typename Entity>",
       "    static std::optional<Entity> fromRow(const jcailloux::relais::io::PgResult::Row& row) \x7b",
       "        Entity e;"]
      ++ (e.members.map (fromRowMemberLines e)).flatten
      ++ ["        return e;", "    \x7d"] ∧
    glazeValueLines e =
      ["    template<typename T>",
       "    static constexpr auto glaze_value = glz::object("]
      ++ (((List.range e.members.length).zip (e.members.map DataMember.name)).map
          (fun p => "        \"" ++ p.2 ++ "\", &T::" ++ p.2 ++
            (if p.1 < e.members.length - 1 then "," else "")))
      ++ ["    );"] ∧
    insertCols e = (e.members.filter
      (fun m => !(e.annot.db_managed.contains m.name))).map DataMember.col_name := by
  refine ⟨rfl, ?_, ?_, ?_, rfl, ?_, rfl⟩
  · simp [sqlStructLines, allCols]
  · simp [sqlStructLines, allCols]
  · simp only [colEntries, List.enum_eq_zip_range, List.zip_map_right,
      List.map_map, List.length_map]
    congr 1
  · simp only [glazeValueLines, glazePairLines, List.enum_eq_zip_range,
      List.zip_map_right, List.map_map, List.length_map]

/-! ## Claim C4 — fatal unresolved auto enum -/

lemma listContainsSub_append_right (p s t : List Char)
    (h : listContainsSub p t = true) : listContainsSub p (s ++ t) = true := by
  induction s with
  | nil => simpa using h
  | cons c cs ih =>
    simp only [List.cons_append, listContainsSub, List.append_eq]
    rw [ih]
    simp

lemma listContainsSub_append_left (p s t : List Char)
    (h : listContainsSub p s = true) : listContainsSub p (s ++ t) = true := by
  induction s with
  | nil =>
    have hp : p = [] := by
      cases p with
      | nil => rfl
      | cons a as => simp [listContainsSub, List.isPrefixOf] at h
    subst hp
    simpa using listContainsSub_self [] t
  | cons c cs ih =>
    simp only [listContainsSub, List.cons_append, List.append_eq] at h ⊢
    rcases Bool.or_eq_true_iff.mp h with h1 | h2
    · have hpre : p.isPrefixOf (c :: (cs ++ t)) = true := by
        rcases (List.isPrefixOf_iff_prefix).mp h1 with ⟨r, hr⟩
        refine (List.isPrefixOf_iff_prefix).mpr ⟨r ++ t, ?_⟩
        rw [← List.append_assoc, hr]
        rfl
      rw [hpre]
      simp
    · rw [ih h2]
      simp

lemma containsSub_append_right (s t p : String) (h : containsSub t p = true) :
    containsSub (s ++ t) p = true := by
  unfold containsSub at h ⊢
  rw [String.data_append]
  exact listContainsSub_append_right p.data s.data t.data h

lemma containsSub_append_left (s t p : String) (h : containsSub s p = true) :
    containsSub (s ++ t) p = true := by
  unfold containsSub at h ⊢
  rw [String.data_append]
  exact listContainsSub_append_left p.data s.data t.data h

lemma containsSub_self (p : String) : containsSub p p = true := by
  unfold containsSub
  have h := listContainsSub_self p.data []
  simpa using h

lemma resolveAutoEnumsList_error (e : ParsedEntity) (src : String)
    (l : List EnumMapping)
    (h : ∃ em ∈ l, em.pairs = [] ∧ parseGlzEnumerate src em.cpp_type = []) :
    ∃ em ∈ l, em.pairs = [] ∧ parseGlzEnumerate src em.cpp_type = [] ∧
      resolveAutoEnumsList e src l = Except.error (autoEnumError e em) := by
  induction l with
  | nil => simp at h
  | cons em0 rest ih =>
    by_cases h0 : em0.pairs = [] ∧ parseGlzEnumerate src em0.cpp_type = []
    · refine ⟨em0, by simp, h0.1, h0.2, ?_⟩
      simp [resolveAutoEnumsList, h0.1, h0.2]
    · have hrest : ∃ em ∈ rest,
          em.pairs = [] ∧ parseGlzEnumerate src em.cpp_type = [] := by
        rcases h with ⟨em, hmem, hp⟩
        rcases List.mem_cons.mp hmem with rfl | hmem2
        · exact absurd hp h0
        · exact ⟨em, hmem2, hp⟩
      rcases ih hrest with ⟨em, hmem, hp1, hp2, herr⟩
      refine ⟨em, List.mem_cons_of_mem _ hmem, hp1, hp2, ?_⟩
      by_cases hpz : em0.pairs = []
      · have hpar : parseGlzEnumerate src em0.cpp_type ≠ [] :=
          fun hc => h0 ⟨hpz, hc⟩
        cases hpr : parseGlzEnumerate src em0.cpp_type with
        | nil => exact absurd hpr hpar
        | cons p ps =>
          simp [resolveAutoEnumsList, hpz, hpr, herr, Except.map]
      · simp [resolveAutoEnumsList, hpz, herr, Except.map]

/-- C4: if some member carries the bare enum tag (registered with empty
pairs) and the source text holds no glz::meta specialization with a
glz::enumerate block for the member's enum type, then generation of the
entity aborts with an error whose message names both the field and the
(qualified) enum type; with several such fields the error names the first
unresolvable one. -/
theorem C4_fatal_auto_enum (e : ParsedEntity) (src inc : String)
    (h : ∃ em ∈ e.annot.enums, em.pairs = [] ∧
      parseGlzEnumerate src em.cpp_type = []) :
    ∃ em ∈ e.annot.enums, em.pairs = [] ∧
      parseGlzEnumerate src em.cpp_type = [] ∧
      generate e src inc = Except.error (autoEnumError e em) ∧
      containsSub (autoEnumError e em) em.field_name = true ∧
      containsSub (autoEnumError e em) (qualifyType e em.cpp_type) = true := by
  rcases resolveAutoEnumsList_error e src _ h with ⟨em, hmem, h1, h2, herr⟩
  refine ⟨em, hmem, h1, h2, ?_, ?_, ?_⟩
  · unfold generate resolveAutoEnums
    rw [herr]
    rfl
  · rw [show autoEnumError e em =
      ("@relais enum on field '" ++ em.field_name) ++
      ("': no glz::meta<" ++ qualifyType e em.cpp_type ++
       "> with glz::enumerate() found in " ++ e.source_file ++
       ". Either define glz::meta<" ++ qualifyType e em.cpp_type ++
       "> in the source header, " ++
       "or use explicit mapping: enum=val1:Variant1,val2:Variant2") from by
        simp [autoEnumError, String.append_assoc]]
    apply containsSub_append_left
    apply containsSub_append_right
    exact containsSub_self _
  · rw [show autoEnumError e em =
      ("@relais enum on field '" ++ em.field_name ++ "': no glz::meta<" ++
        qualifyType e em.cpp_type) ++
      ("> with glz::enumerate() found in " ++ e.source_file ++
       ". Either define glz::meta<" ++ qualifyType e em.cpp_type ++
       "> in the source header, " ++
       "or use explicit mapping: enum=val1:Variant1,val2:Variant2") from by
        simp [autoEnumError, String.append_assoc]]
    apply containsSub_append_left
    apply containsSub_append_right
    exact containsSub_self _

/-- C4 witness member: a bare auto-enum field. -/
def c4Member : DataMember :=
  { name := "status", cpp_type := "Level", tags := ["auto_enum"] }

/-- C4 witness entity. -/
def c4Entity : ParsedEntity :=
  { class_name := "Alert", nspace := "app",
    annot := applyMemberAnnotations {} [c4Member],
    members := [c4Member], source_file := "Alert.h" }

/-- C4 witness: the theorem applied to the concrete entity with an empty
source text (no glz::meta anywhere). -/
theorem C4_witness :
    (∃ em ∈ c4Entity.annot.enums, em.pairs = [] ∧
      parseGlzEnumerate ("") em.cpp_type = []) ∧
    ∃ em ∈ c4Entity.annot.enums, em.pairs = [] ∧
      parseGlzEnumerate ("") em.cpp_type = [] ∧
      generate c4Entity ("") ("Alert.h") =
        Except.error (autoEnumError c4Entity em) ∧
      containsSub (autoEnumError c4Entity em) em.field_name = true ∧
      containsSub (autoEnumError c4Entity em)
        (qualifyType c4Entity em.cpp_type) = true :=
  ⟨by decide, C4_fatal_auto_enum c4Entity ("") ("Alert.h") (by decide)⟩

/-! ## Claim C8 — deterministic filter ordering -/

/-- C8: the pipeline is a pure function of its parsed input (the embedding
itself is deterministic), and the emitted filter entries of the embedded
ListDescriptor are a permutation of the declared filter configurations in
ascending (non-strict) order of HTTP parameter name, whatever the
declaration order of the filterable tags was; the emitted filter section
lists exactly those sorted entries. -/
theorem C8_filter_determinism (e : ParsedEntity) :
    (sortFilters e.annot.filters).Perm e.annot.filters ∧
    List.Pairwise (fun f g : FilterConfig => f.param ≤ g.param)
      (sortFilters e.annot.filters) ∧
    (e.annot.filters ≠ [] →
      embeddedDescriptorLines e =
        ["    // Embedded ListDescriptor — auto-detected by ListMixin",
         "    struct ListDescriptor \x7b", "",
         "        static constexpr auto filters = std::tuple\x7b"]
        ++ (sortFilters e.annot.filters).enum.map
            (filterEntryLine e (sortFilters e.annot.filters).length)
        ++ ["        \x7d;"]
        ++ (if e.annot.sorts ≠ [] then
            ["", "        static constexpr auto sorts = std::tuple\x7b"]
            ++ e.annot.sorts.enum.map
                (sortEntryLine e e.annot.sorts.length)
            ++ ["        \x7d;"] else [])
        ++ ["",
            "        static constexpr uint16_t defaultLimit = " ++
              toString ((if e.annot.limits ≠ [] then e.annot.limits
                else [10, 25, 50]).headD 0) ++ ";",
            "        static constexpr uint16_t maxLimit = " ++
              toString ((if e.annot.limits ≠ [] then e.annot.limits
                else [10, 25, 50]).getLastD 0) ++ ";",
            "    \x7d;"]) := by
  refine ⟨List.mergeSort_perm _ _, ?_, ?_⟩
  · have hp := @List.sorted_mergeSort FilterConfig
      (fun f g => decide (f.param ≤ g.param))
      (by
        intro a b c hab hbc
        simp only [decide_eq_true_eq] at hab hbc ⊢
        exact le_trans hab hbc)
      (by
        intro a b
        simp only [Bool.or_eq_true, decide_eq_true_eq]
        exact le_total a.param b.param)
      e.annot.filters
    exact hp.imp (fun h => of_decide_eq_true h)
  · intro hne
    simp [embeddedDescriptorLines, hne]

/-- C8 witness member: two filterable tags declared in descending parameter
order. -/
def c8Member : DataMember :=
  { name := "n", cpp_type := "int64_t",
    filter_configs := [{ param := "zz", field := "n" },
                       { param := "aa", field := "n" }] }

/-- C8 witness entity. -/
def c8Entity : ParsedEntity :=
  { class_name := "Row", nspace := "",
    annot := applyMemberAnnotations {} [c8Member],
    members := [c8Member], source_file := "Row.h" }

/-- C8 witness: the theorem applied to the concrete entity. -/
theorem C8_witness :
    (sortFilters c8Entity.annot.filters).Perm c8Entity.annot.filters ∧
    List.Pairwise (fun f g : FilterConfig => f.param ≤ g.param)
      (sortFilters c8Entity.annot.filters) :=
  ⟨(C8_filter_determinism c8Entity).1, (C8_filter_determinism c8Entity).2.1⟩

/-! ## Claim C9 — JSON fields and enum/timestamp handling -/

/-- C9 counterexample member: tagged both json_field and bare enum. -/
def c9Member : DataMember :=
  { name := "data", cpp_type := "Payload", tags := ["json_field", "auto_enum"] }

/-- C9 counterexample entity. -/
def c9Entity : ParsedEntity :=
  { class_name := "Doc", nspace := "app",
    annot := applyMemberAnnotations {} [c9Member],
    members := [c9Member], source_file := "Doc.h" }

/-- C9 counterexample: a field tagged both json_field and bare enum does
not bypass the fatal auto-enum resolution step: it is registered in the
enums list with empty pairs and generation against a source text without a
matching glz::meta aborts with the auto-enum error, refuting the bypass
part of the claim. -/
theorem C9_counterexample :
    c9Entity.annot.json_fields.contains ("data") = true ∧
    (⟨"data", [], "Payload"⟩ : EnumMapping) ∈ c9Entity.annot.enums ∧
    generate c9Entity ("") ("Doc.h") =
      Except.error (autoEnumError c9Entity ⟨"data", [], "Payload"⟩) := by
  refine ⟨by decide, by decide, by rfl⟩

/-- C9 (amended): the row-decode and write-encode passes treat a field
listed in json_fields exclusively as a JSON field — the emitted decode,
parameter-push and row-view populate code for that member is unchanged if
all registered enum mappings and timestamp fields are erased, so no enum
string mapping and no timestamp conversion is applied to it; however a
bare enum tag on such a field is still registered and the fatal auto-enum
resolution step still applies to it (it is not bypassed). -/
theorem C9_json_exclusive (e : ParsedEntity) (m : DataMember)
    (hj : e.annot.json_fields.contains m.name = true) :
    fromRowMemberLines e m =
      fromRowMemberLines
        { e with annot :=
          { e.annot with enums := [], timestamps := [] } } m ∧
    pushLines e m =
      pushLines
        { e with annot :=
          { e.annot with enums := [], timestamps := [] } } m ∧
    rowviewPopulateMember e m =
      rowviewPopulateMember
        { e with annot :=
          { e.annot with enums := [], timestamps := [] } } m := by
  have hj2 : m.name ∈ e.annot.json_fields := by
    simpa using hj
  refine ⟨?_, ?_, ?_⟩
  · simp [fromRowMemberLines, hj2]
  · simp [pushLines, hj2]
  · simp [rowviewPopulateMember, hj2]

/-- C9 witness member: an optional JSON field. -/
def c9wMember : DataMember :=
  { name := "meta", cpp_type := "std::optional<Meta>", tags := ["json_field"] }

/-- C9 witness entity (also carries an enum member so that erasing the enum
list is not vacuous). -/
def c9wEntity : ParsedEntity :=
  { class_name := "Page", nspace := "app",
    annot := applyMemberAnnotations {}
      [c9wMember,
       { name := "kind", cpp_type := "Kind", enum_pairs := [("a", "A")] }],
    members :=
      [c9wMember,
       { name := "kind", cpp_type := "Kind", enum_pairs := [("a", "A")] }],
    source_file := "Page.h" }

/-- C9 witness: the amended theorem applied to the concrete JSON member. -/
theorem C9_witness :
    c9wEntity.annot.json_fields.contains (c9wMember.name) = true ∧
    fromRowMemberLines c9wEntity c9wMember =
      fromRowMemberLines
        { c9wEntity with annot :=
          { c9wEntity.annot with enums := [], timestamps := [] } } c9wMember :=
  ⟨by decide, (C9_json_exclusive c9wEntity c9wMember (by decide)).1⟩

/-! ## Claim C6 — read-only suppression -/

/-- The header line of the generated toInsertParams method; it is produced
only by the write-encode pass. -/
def insertHeaderLine : String :=
  "    static jcailloux::relais::io::PgParams toInsertParams(const Entity& e) \x7b"

/-- The header line of the generated toUpdateParams method. -/
def updateHeaderLine : String :=
  "    static jcailloux::relais::io::PgParams toUpdateParams(const Entity& e) \x7b"

/-- The declaration line of the UPDATE SQL constant. -/
def updateDeclLine : String :=
  "        static constexpr const char* update ="

/-- A line is write-free when it is none of the three write-path lines. -/
abbrev NW (l : String) : Prop :=
  l ≠ insertHeaderLine ∧ l ≠ updateHeaderLine ∧ l ≠ updateDeclLine

lemma noW_pre (pre rest : String)
    (h1 : pre.data.isPrefixOf insertHeaderLine.data = false)
    (h2 : pre.data.isPrefixOf updateHeaderLine.data = false)
    (h3 : pre.data.isPrefixOf updateDeclLine.data = false) :
    NW (pre ++ rest) :=
  ⟨strNe_pre _ _ _ h1, strNe_pre _ _ _ h2, strNe_pre _ _ _ h3⟩

lemma noW_suf (rest suf : String)
    (h1 : suf.data.isSuffixOf insertHeaderLine.data = false)
    (h2 : suf.data.isSuffixOf updateHeaderLine.data = false)
    (h3 : suf.data.isSuffixOf updateDeclLine.data = false) :
    NW (rest ++ suf) :=
  ⟨strNe_suf _ _ _ h1, strNe_suf _ _ _ h2, strNe_suf _ _ _ h3⟩

lemma fmc {p : String → Prop} {a : String} {l : List String}
    (h1 : p a) (h2 : ∀ x ∈ l, p x) : ∀ x ∈ a :: l, p x :=
  List.forall_mem_cons.mpr ⟨h1, h2⟩

lemma fma {p : String → Prop} {l1 l2 : List String}
    (h1 : ∀ x ∈ l1, p x) (h2 : ∀ x ∈ l2, p x) : ∀ x ∈ l1 ++ l2, p x :=
  List.forall_mem_append.mpr ⟨h1, h2⟩

lemma fmn {p : String → Prop} : ∀ x ∈ ([] : List String), p x := by simp

lemma fm1 {p : String → Prop} {a : String} (h : p a) : ∀ x ∈ [a], p x :=
  fmc h fmn

lemma fmif {p : String → Prop} {c : Prop} [Decidable c] {l1 l2 : List String}
    (h1 : ∀ x ∈ l1, p x) (h2 : ∀ x ∈ l2, p x) :
    ∀ x ∈ (if c then l1 else l2), p x := by
  split
  · exact h1
  · exact h2

lemma fmmap {α : Type} {p : String → Prop} {f : α → String} {l : List α}
    (h : ∀ a ∈ l, p (f a)) : ∀ x ∈ l.map f, p x := by
  intro x hx
  rcases List.mem_map.mp hx with ⟨a, ha, rfl⟩
  exact h a ha

lemma fmflat {α : Type} {p : String → Prop} {f : α → List String} {l : List α}
    (h : ∀ a ∈ l, ∀ x ∈ f a, p x) : ∀ x ∈ (l.map f).flatten, p x := by
  intro x hx
  rcases List.mem_flatten.mp hx with ⟨s2, hs, hx2⟩
  rcases List.mem_map.mp hs with ⟨a, ha, rfl⟩
  exact h a ha x hx2

lemma nw_sqlStructLines (e : ParsedEntity) (tn : String)
    (hro : e.annot.read_only = true) :
    ∀ l ∈ sqlStructLines e tn, NW l := by
  unfold sqlStructLines
  simp only [hro, eq_self_iff_true, not_true, if_false, Bool.not_true]
  refine fma (fma (fma (fma ?base ?upd) ?batch) ?part) ?close
  case base =>
    refine fmc (by decide) (fmc (by decide) (fmc ?_ (fmc (by decide)
      (fmc ?_ (fmc (by decide) (fm1 ?_))))))
    · simp only [String.append_assoc]
      exact noW_pre _ _ (by decide) (by decide) (by decide)
    · simp only [String.append_assoc]
      exact noW_pre _ _ (by decide) (by decide) (by decide)
    · simp only [String.append_assoc]
      exact noW_pre _ _ (by decide) (by decide) (by decide)
  case upd => exact fmn
  case batch =>
    refine fmc (by decide) (fmc ?_ (fmc (by decide) (fm1 ?_)))
    · simp only [String.append_assoc]
      exact noW_pre _ _ (by decide) (by decide) (by decide)
    · simp only [String.append_assoc]
      exact noW_pre _ _ (by decide) (by decide) (by decide)
  case part =>
    refine fmif (fmc (by decide) (fm1 ?_)) fmn
    simp only [String.append_assoc]
    exact noW_pre _ _ (by decide) (by decide) (by decide)
  case close => exact fm1 (by decide)

lemma nw_traitsTypeLines (a : EntityAnnot) (u : List DataMember) :
    ∀ l ∈ traitsTypeLines a u, NW l := by
  unfold traitsTypeLines
  refine fma (fma (fm1 (by decide)) (fmif ?body fmn)) (fm1 (by decide))
  refine fma (fma (fm1 (by decide)) (fmmap ?_)) ?_
  · intro p _
    simp only [String.append_assoc]
    exact noW_pre _ _ (by decide) (by decide) (by decide)
  · exact fmc (by decide) (fmc (by decide) (fm1 (by decide)))

lemma nw_keyLines (a : EntityAnnot) : ∀ l ∈ keyLines a, NW l := by
  unfold keyLines
  refine fma (fma (fmc (by decide) (fm1 (by decide))) (fmif (fm1 ?_) (fm1 ?_)))
    (fm1 (by decide))
  · simp only [String.append_assoc]
    exact noW_pre _ _ (by decide) (by decide) (by decide)
  · simp only [String.append_assoc]
    exact noW_pre _ _ (by decide) (by decide) (by decide)

lemma nw_partitionHintLines (a : EntityAnnot) :
    ∀ l ∈ partitionHintLines a, NW l := by
  simp only [partitionHintLines]
  refine fmc (by decide) (fmc (by decide) (fmc (by decide) (fmc ?_
    (fmc (by decide) (fm1 (by decide))))))
  exact noW_pre _ _ (by decide) (by decide) (by decide)

lemma nw_dynamicSizeLines (e : ParsedEntity) :
    ∀ l ∈ dynamicSizeLines e, NW l := by
  simp only [dynamicSizeLines]
  refine fmif fmn (fmc ?_ (fmc ?_ (fm1 (by decide))))
  · simp only [String.append_assoc]
    exact noW_pre _ _ (by decide) (by decide) (by decide)
  · simp only [String.append_assoc]
    exact noW_pre _ _ (by decide) (by decide) (by decide)

lemma nw_glazePairLines (names : List String) :
    ∀ l ∈ glazePairLines names, NW l := by
  unfold glazePairLines
  refine fmmap ?_
  intro p _
  simp only [String.append_assoc]
  exact noW_pre _ _ (by decide) (by decide) (by decide)

lemma nw_glazeValueLines (e : ParsedEntity) :
    ∀ l ∈ glazeValueLines e, NW l := by
  unfold glazeValueLines
  exact fma (fma (fmc (by decide) (fm1 (by decide)))
    (nw_glazePairLines _)) (fm1 (by decide))

lemma nw_includesLines (e : ParsedEntity) (inc : String) :
    ∀ l ∈ includesLines e inc, NW l := by
  simp only [includesLines]
  refine fma (fma (fma (fma (fma ?base ?ifc) ?ifj) ?ifv) ?main) ?ifl
  case base =>
    exact fmc (by decide) (fmc (by decide) (fmc (by decide) (fm1 (by decide))))
  case ifc => exact fmif (fmc (by decide) (fm1 (by decide))) fmn
  case ifj => exact fmif (fm1 (by decide)) fmn
  case ifv => exact fmif (fm1 (by decide)) fmn
  case main =>
    refine fmc (by decide) (fm1 ?_)
    simp only [String.append_assoc]
    exact noW_pre _ _ (by decide) (by decide) (by decide)
  case ifl =>
    exact fmif (fmc (by decide) (fmc (by decide) (fm1 (by decide)))) fmn

lemma nw_filterEntryLine (e : ParsedEntity) (total : Nat)
    (p : Nat × FilterConfig) : NW (filterEntryLine e total p) := by
  simp only [filterEntryLine]
  split
  · simp only [String.append_assoc]
    exact noW_pre _ _ (by decide) (by decide) (by decide)
  · simp only [String.append_assoc]
    exact noW_pre _ _ (by decide) (by decide) (by decide)

lemma nw_sortEntryLine (e : ParsedEntity) (total : Nat)
    (p : Nat × SortConfig) : NW (sortEntryLine e total p) := by
  simp only [sortEntryLine]
  simp only [String.append_assoc]
  exact noW_pre _ _ (by decide) (by decide) (by decide)

lemma nw_embeddedDescriptorLines (e : ParsedEntity) :
    ∀ l ∈ embeddedDescriptorLines e, NW l := by
  simp only [embeddedDescriptorLines]
  refine fma (fma (fma ?head ?iff) ?ifs) ?tail
  case head => exact fmc (by decide) (fm1 (by decide))
  case iff =>
    refine fmif (fma (fma (fmc (by decide) (fm1 (by decide)))
      (fmmap (fun p _ => nw_filterEntryLine e _ p))) (fm1 (by decide))) fmn
  case ifs =>
    refine fmif (fma (fma (fmc (by decide) (fm1 (by decide)))
      (fmmap (fun p _ => nw_sortEntryLine e _ p))) (fm1 (by decide))) fmn
  case tail =>
    refine fmc (by decide) (fmc ?_ (fmc ?_ (fm1 (by decide))))
    · simp only [String.append_assoc]
      exact noW_pre _ _ (by decide) (by decide) (by decide)
    · simp only [String.append_assoc]
      exact noW_pre _ _ (by decide) (by decide) (by decide)

lemma nw_structMetaLines (e : ParsedEntity) (src : String) :
    ∀ l ∈ structMetaLines e src, NW l := by
  unfold structMetaLines
  refine fmif fmn (fma (fma ?head (nw_glazePairLines _)) ?tail)
  case head =>
    refine fmc (by decide) (fmc ?_ (fmc ?_ (fm1 (by decide))))
    · simp only [String.append_assoc]
      exact noW_pre _ _ (by decide) (by decide) (by decide)
    · simp only [String.append_assoc]
      exact noW_pre _ _ (by decide) (by decide) (by decide)
  case tail => exact fmc (by decide) (fm1 (by decide))

lemma nw_enumMetaEntryLines (fqn : String) (pairs : List (String × String)) :
    ∀ l ∈ enumMetaEntryLines fqn pairs, NW l := by
  unfold enumMetaEntryLines
  refine fma (fma ?head (fmmap ?pair)) ?tail
  case head =>
    refine fmc (by decide) (fmc ?_ (fmc ?_ (fm1 (by decide))))
    · simp only [String.append_assoc]
      exact noW_pre _ _ (by decide) (by decide) (by decide)
    · simp only [String.append_assoc]
      exact noW_pre _ _ (by decide) (by decide) (by decide)
  case pair =>
    intro p _
    simp only [String.append_assoc]
    exact noW_pre _ _ (by decide) (by decide) (by decide)
  case tail => exact fmc (by decide) (fm1 (by decide))

lemma nw_enumMetasAux (e : ParsedEntity) (src : String) :
    ∀ (l : List EnumMapping) (seen : List String),
      ∀ x ∈ enumMetasAux e src l seen, NW x := by
  intro l
  induction l with
  | nil =>
    intro seen
    simp [enumMetasAux]
  | cons em rest ih =>
    intro seen
    simp only [enumMetasAux]
    split
    · exact ih seen
    · split
      · exact ih _
      · split
        · exact ih _
        · exact fma (nw_enumMetaEntryLines _ _) (ih _)

lemma nw_rowViewMetaLines (mn : String) : ∀ l ∈ rowViewMetaLines mn, NW l := by
  simp only [rowViewMetaLines]
  refine fmc (by decide) (fmc ?_ (fmc ?_ (fmc ?_ (fm1 (by decide)))))
  · simp only [String.append_assoc]
    exact noW_pre _ _ (by decide) (by decide) (by decide)
  · simp only [String.append_assoc]
    exact noW_pre _ _ (by decide) (by decide) (by decide)
  · simp only [String.append_assoc]
    exact noW_pre _ _ (by decide) (by decide) (by decide)

lemma nw_fieldInfoLines_ro (e : ParsedEntity) (mn : String)
    (u : List DataMember) (hro : e.annot.read_only = true) :
    ∀ l ∈ fieldInfoLines e mn u, NW l := by
  simp [fieldInfoLines, hro]

lemma nw_fromRowMemberLines (e : ParsedEntity) (m : DataMember) :
    ∀ l ∈ fromRowMemberLines e m, NW l := by
  simp only [fromRowMemberLines, List.append_assoc, List.cons_append,
    List.nil_append]
  refine fmif (fmif ?jopt (fm1 ?jplain)) (fmif (fm1 ?raw) ?rest)
  case jopt =>
    refine fmc ?_ (fmc ?_ (fmc (by decide) (fmc ?_ (fmc (by decide)
      (fmc ?_ (fmc (by decide) (fm1 (by decide))))))))
    · simp only [String.append_assoc]
      exact noW_pre _ _ (by decide) (by decide) (by decide)
    · simp only [String.append_assoc]
      exact noW_pre _ _ (by decide) (by decide) (by decide)
    · simp only [String.append_assoc]
      exact noW_pre _ _ (by decide) (by decide) (by decide)
    · simp only [String.append_assoc]
      exact noW_pre _ _ (by decide) (by decide) (by decide)
  case jplain =>
    simp only [String.append_assoc]
    exact noW_pre _ _ (by decide) (by decide) (by decide)
  case raw =>
    simp only [String.append_assoc]
    exact noW_pre _ _ (by decide) (by decide) (by decide)
  case rest =>
    cases hfem : findEnumMapping e.annot m.name with
    | some em =>
      refine fmif ?eopt ?eplain
      case eopt =>
        refine fmc ?_ (fmc ?_ (fma (fmmap ?_) (fm1 (by decide))))
        · simp only [String.append_assoc]
          exact noW_pre _ _ (by decide) (by decide) (by decide)
        · simp only [String.append_assoc]
          exact noW_pre _ _ (by decide) (by decide) (by decide)
        · intro p _
          simp only [String.append_assoc]
          exact noW_pre _ _ (by decide) (by decide) (by decide)
      case eplain =>
        refine fmc (by decide) (fmc ?_ (fma (fmmap ?_) (fm1 (by decide))))
        · simp only [String.append_assoc]
          exact noW_pre _ _ (by decide) (by decide) (by decide)
        · intro p _
          simp only [String.append_assoc]
          exact noW_pre _ _ (by decide) (by decide) (by decide)
    | none =>
      refine fmif (fm1 ?_) (fm1 ?_)
      · simp only [String.append_assoc]
        exact noW_pre _ _ (by decide) (by decide) (by decide)
      · simp only [String.append_assoc]
        exact noW_pre _ _ (by decide) (by decide) (by decide)

lemma nw_fromRowLines (e : ParsedEntity) : ∀ l ∈ fromRowLines e, NW l := by
  unfold fromRowLines
  simp only [List.append_assoc, List.cons_append, List.nil_append]
  exact fmc (by decide) (fmc (by decide) (fmc (by decide)
    (fma (fmflat (fun m _ => nw_fromRowMemberLines e m))
      (fmc (by decide) (fm1 (by decide))))))

lemma nw_rowviewPopulateMember (e : ParsedEntity) (m : DataMember) :
    ∀ l ∈ rowviewPopulateMember e m, NW l := by
  simp only [rowviewPopulateMember, List.append_assoc, List.cons_append,
    List.nil_append]
  refine fmif (fmif ?jopt (fm1 ?jplain)) (fmif (fm1 ?raw) ?rest)
  case jopt =>
    refine fmc ?_ (fmc ?_ (fmc (by decide) (fmc ?_ (fmc (by decide)
      (fmc ?_ (fmc (by decide) (fm1 (by decide))))))))
    · simp only [String.append_assoc]
      exact noW_pre _ _ (by decide) (by decide) (by decide)
    · simp only [String.append_assoc]
      exact noW_pre _ _ (by decide) (by decide) (by decide)
    · simp only [String.append_assoc]
      exact noW_pre _ _ (by decide) (by decide) (by decide)
    · simp only [String.append_assoc]
      exact noW_pre _ _ (by decide) (by decide) (by decide)
  case jplain =>
    simp only [String.append_assoc]
    exact noW_pre _ _ (by decide) (by decide) (by decide)
  case raw =>
    simp only [String.append_assoc]
    exact noW_pre _ _ (by decide) (by decide) (by decide)
  case rest =>
    cases hfem : findEnumMapping e.annot m.name with
    | some em =>
      refine fmif ?eopt ?eplain
      case eopt =>
        refine fmc ?_ (fmc ?_ (fma (fmmap ?_) (fm1 (by decide))))
        · simp only [String.append_assoc]
          exact noW_pre _ _ (by decide) (by decide) (by decide)
        · simp only [String.append_assoc]
          exact noW_pre _ _ (by decide) (by decide) (by decide)
        · intro p _
          simp only [String.append_assoc]
          exact noW_pre _ _ (by decide) (by decide) (by decide)
      case eplain =>
        refine fmc (by decide) (fmc ?_ (fma (fmmap ?_) (fm1 (by decide))))
        · simp only [String.append_assoc]
          exact noW_pre _ _ (by decide) (by decide) (by decide)
        · intro p _
          simp only [String.append_assoc]
          exact noW_pre _ _ (by decide) (by decide) (by decide)
    | none =>
      refine fmif (fm1 ?_) (fm1 ?_)
      · simp only [String.append_assoc]
        exact noW_pre _ _ (by decide) (by decide) (by decide)
      · simp only [String.append_assoc]
        exact noW_pre _ _ (by decide) (by decide) (by decide)

lemma nw_rowToJsonLines (e : ParsedEntity) : ∀ l ∈ rowToJsonLines e, NW l := by
  unfold rowToJsonLines
  simp only [List.append_assoc, List.cons_append, List.nil_append]
  exact fmc (by decide) (fmc (by decide) (fmc (by decide) (fmc (by decide)
    (fma (fmflat (fun m _ => nw_rowviewPopulateMember e m))
      (fmc (by decide) (fmc (by decide) (fmc (by decide)
        (fmc (by decide) (fmc (by decide) (fm1 (by decide)))))))))))

lemma nw_rowToBeveLines (e : ParsedEntity) : ∀ l ∈ rowToBeveLines e, NW l := by
  unfold rowToBeveLines
  simp only [List.append_assoc, List.cons_append, List.nil_append]
  exact fmc (by decide) (fmc (by decide) (fmc (by decide) (fmc (by decide)
    (fma (fmflat (fun m _ => nw_rowviewPopulateMember e m))
      (fmc (by decide) (fmc (by decide) (fmc (by decide)
        (fmc (by decide) (fm1 (by decide))))))))))

lemma nw_rowViewMemberLine (e : ParsedEntity) (m : DataMember) :
    NW (rowViewMemberLine e m) := by
  simp only [rowViewMemberLine]
  exact noW_suf _ _ (by decide) (by decide) (by decide)

lemma nw_rowViewSectionLines (e : ParsedEntity) :
    ∀ l ∈ rowViewSectionLines e, NW l := by
  unfold rowViewSectionLines
  simp only [List.append_assoc, List.cons_append, List.nil_append]
  exact fmc (by decide) (fmc (by decide)
    (fma (fmmap (fun m _ => nw_rowViewMemberLine e m))
      (fmc (by decide) (fmc (by decide)
        (fma (nw_rowToJsonLines e) (fmc (by decide) (nw_rowToBeveLines e)))))))

lemma nw_mappingStructLines (e : ParsedEntity) (u : List DataMember)
    (hro : e.annot.read_only = true) :
    ∀ l ∈ mappingStructLines e u, NW l := by
  simp only [mappingStructLines, hro, eq_self_iff_true, not_true, if_false,
    if_true, false_and, List.append_assoc, List.cons_append, List.nil_append]
  refine fmc ?_ (fmc ?_ (fmc ?_ (fma ?_ (fmc ?_ (fmc ?_ (fmc ?_ (fma
    (nw_sqlStructLines e _ hro) (fmc ?_ (fma (nw_traitsTypeLines _ _) (fmc ?_
    (fma (nw_keyLines _) (fmc ?_ (fma ?_ (fma (nw_fromRowLines e) (fmc ?_
    (fma (nw_dynamicSizeLines e) (fmc ?_ (fma (nw_glazeValueLines e) (fmc ?_
    (fma (nw_rowViewSectionLines e) (fma ?_ (fm1 ?_))))))))))))))))))))))
  · simp only [String.append_assoc]
    exact noW_pre _ _ (by decide) (by decide) (by decide)
  · decide
  · simp only [String.append_assoc]
    exact noW_pre _ _ (by decide) (by decide) (by decide)
  · refine fmif (fm1 ?_) (fm1 ?_)
    · simp only [String.append_assoc]
      exact noW_pre _ _ (by decide) (by decide) (by decide)
    · simp only [String.append_assoc]
      exact noW_pre _ _ (by decide) (by decide) (by decide)
  · decide
  · simp only [String.append_assoc]
    exact noW_pre _ _ (by decide) (by decide) (by decide)
  · decide
  · decide
  · decide
  · decide
  · exact fmif (fma (nw_partitionHintLines _) (fm1 (by decide))) fmn
  · decide
  · decide
  · decide
  · exact fmif (fmc (by decide) (nw_embeddedDescriptorLines e)) fmn
  · decide

lemma nw_generateLines (e : ParsedEntity) (u : List DataMember)
    (src inc : String) (hro : e.annot.read_only = true) :
    ∀ l ∈ generateLines e u src inc, NW l := by
  simp only [generateLines, List.append_assoc, List.cons_append,
    List.nil_append]
  refine fmc ?_ (fmc ?_ (fmc ?_ (fmc ?_ (fmc ?_ (fma (nw_includesLines e inc)
    (fmc ?_ (fmc ?_ (fmc ?_ (fma (nw_mappingStructLines e u hro) (fmc ?_ (fma
    (nw_fieldInfoLines_ro e _ u hro) (fmc ?_ (fmc ?_ (fmc ?_ (fmc ?_ (fmc ?_
    (fmc ?_ (fma ?_ (fmc ?_ (fmc ?_ (fma ?_ (fma ?_ (fma ?_ (fm1
    ?_))))))))))))))))))))))))
  · decide
  · exact noW_pre _ _ (by decide) (by decide) (by decide)
  · decide
  · decide
  · decide
  · decide
  · decide
  · decide
  · decide
  · decide
  · simp only [String.append_assoc]
    exact noW_pre _ _ (by decide) (by decide) (by decide)
  · decide
  · decide
  · simp only [String.append_assoc]
    exact noW_pre _ _ (by decide) (by decide) (by decide)
  · exact noW_suf _ _ (by decide) (by decide) (by decide)
  · refine fmif (fmc (by decide) (fm1 ?_)) fmn
    simp only [String.append_assoc]
    exact noW_pre _ _ (by decide) (by decide) (by decide)
  · decide
  · decide
  · exact fmif (fmc (by decide) (nw_structMetaLines e src)) fmn
  · exact fmif (fmc (by decide) (nw_enumMetasAux e src _ _)) fmn
  · exact fmif (fmc (by decide) (nw_rowViewMetaLines _)) fmn
  · decide

lemma resolveAutoEnums_ok_read_only (e : ParsedEntity) (src : String)
    (e2 : ParsedEntity) (h : resolveAutoEnums e src = Except.ok e2) :
    e2.annot.read_only = e.annot.read_only := by
  unfold resolveAutoEnums at h
  cases hres : resolveAutoEnumsList e src e.annot.enums with
  | error msg =>
    rw [hres] at h
    simp [Except.map] at h
  | ok enums2 =>
    rw [hres] at h
    simp only [Except.map, Except.ok.injEq] at h
    rw [← h]

/-- C6: for a read-only entity (whatever its field configuration), the
generated output contains no toInsertParams method header, no
toUpdateParams method header, and no UPDATE SQL constant declaration —
the write-encode methods and the UPDATE statement are suppressed. -/
theorem C6_read_only_suppression (e : ParsedEntity) (src inc : String)
    (out : List String) (hro : e.annot.read_only = true)
    (hok : generate e src inc = Except.ok out) :
    insertHeaderLine ∉ out ∧ updateHeaderLine ∉ out ∧ updateDeclLine ∉ out := by
  unfold generate at hok
  cases hres : resolveAutoEnums e src with
  | error msg =>
    rw [hres] at hok
    exact absurd hok (by simp)
  | ok e2 =>
    rw [hres] at hok
    have hout : generateLines e2 (getUpdateableFields e) src inc = out := by
      simpa using hok
    have hro2 : e2.annot.read_only = true := by
      rw [resolveAutoEnums_ok_read_only e src e2 hres]
      exact hro
    rw [← hout]
    have hall := nw_generateLines e2 (getUpdateableFields e) src inc hro2
    exact ⟨fun hm => (hall _ hm).1 rfl, fun hm => (hall _ hm).2.1 rfl,
      fun hm => (hall _ hm).2.2 rfl⟩

/-- C6 witness member one. -/
def c6MemberId : DataMember :=
  { name := "id", cpp_type := "int64_t", tags := ["primary_key"] }

/-- C6 witness member two. -/
def c6MemberName : DataMember :=
  { name := "label", cpp_type := "std::string" }

/-- C6 witness entity: read-only with a key and a string member. -/
def c6Entity : ParsedEntity :=
  { class_name := "Ro", nspace := "app",
    annot := applyMemberAnnotations { table := "ro", read_only := true }
      [c6MemberId, c6MemberName],
    members := [c6MemberId, c6MemberName], source_file := "Ro.h" }

/-- C6 witness output: the generated lines of the read-only entity. -/
def c6Out : List String :=
  generateLines c6Entity (getUpdateableFields c6Entity) ("") ("Ro.h")

/-- C6 witness: the theorem applied to the concrete read-only entity. -/
theorem C6_witness :
    (c6Entity.annot.read_only = true ∧
      generate c6Entity ("") ("Ro.h") = Except.ok c6Out) ∧
    (insertHeaderLine ∉ c6Out ∧ updateHeaderLine ∉ c6Out ∧
      updateDeclLine ∉ c6Out) :=
  ⟨⟨by decide, by rfl⟩,
   C6_read_only_suppression c6Entity ("") ("Ro.h") c6Out (by decide) (by rfl)⟩

end Relais
